import Mathlib

/-!
Verification development for the sls-migrate alert persistence and
reconciliation engine.  The Go sources under `internal/store/alert_store.go`,
`internal/service/sync_service.go`, `internal/service/alert_service.go` and
the MySQL schema `sql/schema.sql` are shallowly embedded: the relational
store becomes an explicit `DB` state (one list of rows per table plus the
per-table AUTO_INCREMENT counters and a write-event log), each store
operation becomes a pure function on `DB`, and fallible operations return
`Except StoreErr`.  A gorm transaction is modelled by the all-or-nothing
semantics of the embedding: an operation that returns `Except.error` leaves
the caller's state untouched (rollback).
-/

namespace SlsMigrate

/-- Errors surfaced by the embedded store layer: `notFound` models
gorm's ErrRecordNotFound, `duplicateKey` a MySQL unique-key violation,
`invalidId` the explicit zero-ID check in UpdateWithTransaction, and
`injectedFailure` a forced step failure used to exercise rollback. -/
inductive StoreErr where
  | notFound
  | duplicateKey
  | invalidId
  | injectedFailure
deriving DecidableEq, Repr

/-! ## Aggregate model (mirrors internal/models) -/

/-- Mirrors models.ConditionConfiguration.  The store's create path writes an
alert_config_id on the row (alert_store.go sets `AlertConfigID` before
`tx.Create`); paths that do not set it leave the Go zero value 0. -/
structure ConditionConfiguration where
  id : Nat := 0
  alertConfigId : Nat := 0
  condition : Option String := none
  countCondition : Option String := none
deriving DecidableEq, Repr

/-- Mirrors models.GroupConfiguration. -/
structure GroupConfiguration where
  id : Nat := 0
  alertConfigId : Nat := 0
  fields : Option String := none
  type : Option String := none
deriving DecidableEq, Repr

/-- Mirrors models.PolicyConfiguration. -/
structure PolicyConfiguration where
  id : Nat := 0
  alertConfigId : Nat := 0
  actionPolicyId : Option String := none
  alertPolicyId : Option String := none
  repeatInterval : Option String := none
deriving DecidableEq, Repr

/-- Mirrors models.TemplateConfiguration. -/
structure TemplateConfiguration where
  id : Nat := 0
  alertConfigId : Nat := 0
  templateId : Option String := none
  lang : Option String := none
  type : Option String := none
  version : Option String := none
  aonotations : Option String := none
  tokens : Option String := none
deriving DecidableEq, Repr

/-- Mirrors models.SinkAlerthubConfiguration. -/
structure SinkAlerthubConfiguration where
  id : Nat := 0
  alertConfigId : Nat := 0
  enabled : Option Bool := none
deriving DecidableEq, Repr

/-- Mirrors models.SinkCmsConfiguration. -/
structure SinkCmsConfiguration where
  id : Nat := 0
  alertConfigId : Nat := 0
  enabled : Option Bool := none
deriving DecidableEq, Repr

/-- Mirrors models.SinkEventStoreConfiguration. -/
structure SinkEventStoreConfiguration where
  id : Nat := 0
  alertConfigId : Nat := 0
  enabled : Option Bool := none
  endpoint : Option String := none
  eventStore : Option String := none
  project : Option String := none
  roleArn : Option String := none
deriving DecidableEq, Repr

/-- Mirrors models.SeverityConfiguration, including the optional in-memory
`EvalCondition` association used by the create/update paths. -/
structure SeverityConfiguration where
  id : Nat := 0
  alertConfigId : Nat := 0
  severity : Option Int := none
  evalConditionId : Option Nat := none
  evalCondition : Option ConditionConfiguration := none
deriving DecidableEq, Repr

/-- Mirrors models.JoinConfiguration. -/
structure JoinConfiguration where
  id : Nat := 0
  alertConfigId : Nat := 0
  joinType : Option String := none
  joinConfig : Option String := none
deriving DecidableEq, Repr

/-- Mirrors models.AlertConfiguration with its scalar columns, the seven
nullable sub-block foreign-key columns, and the in-memory association
fields populated by preloading.  The source field AutoAnnotation is named
`autoAnnotationFlag` here. -/
structure AlertConfiguration where
  id : Nat := 0
  alertId : Nat := 0
  autoAnnotationFlag : Option Bool := none
  dashboard : Option String := none
  muteUntil : Option Int := none
  noDataFire : Option Bool := none
  noDataSeverity : Option Int := none
  threshold : Option Int := none
  type : Option String := none
  version : Option String := none
  sendResolved : Option Bool := none
  conditionConfigId : Option Nat := none
  groupConfigId : Option Nat := none
  policyConfigId : Option Nat := none
  templateConfigId : Option Nat := none
  sinkAlerthubConfigId : Option Nat := none
  sinkCmsConfigId : Option Nat := none
  sinkEventStoreConfigId : Option Nat := none
  conditionConfig : Option ConditionConfiguration := none
  groupConfig : Option GroupConfiguration := none
  policyConfig : Option PolicyConfiguration := none
  templateConfig : Option TemplateConfiguration := none
  severityConfigs : List SeverityConfiguration := []
  joinConfigs : List JoinConfiguration := []
  sinkAlerthubConfig : Option SinkAlerthubConfiguration := none
  sinkCmsConfig : Option SinkCmsConfiguration := none
  sinkEventStoreConfig : Option SinkEventStoreConfiguration := none
deriving DecidableEq, Repr

/-- Mirrors models.AlertSchedule. -/
structure AlertSchedule where
  id : Nat := 0
  alertId : Nat := 0
  cronExpression : Option String := none
  delay : Option Int := none
  interval : Option String := none
  runImmediately : Option Bool := none
  timeZone : Option String := none
  type : String := ""
deriving DecidableEq, Repr

/-- Mirrors models.AlertTag. -/
structure AlertTag where
  id : Nat := 0
  alertId : Nat := 0
  tagType : String := ""
  tagKey : String := ""
  tagValue : Option String := none
deriving DecidableEq, Repr

/-- Mirrors models.AlertQuery.  The source field End is named `endTime`
because `end` is a Lean keyword. -/
structure AlertQuery where
  id : Nat := 0
  alertId : Nat := 0
  chartTitle : Option String := none
  dashboardId : Option String := none
  endTime : Option String := none
  powerSqlMode : Option String := none
  project : Option String := none
  query : String := ""
  region : Option String := none
  roleArn : Option String := none
  start : Option String := none
  store : Option String := none
  storeType : Option String := none
  timeSpanType : Option String := none
  ui : Option String := none
deriving DecidableEq, Repr

/-- Mirrors models.Alert: the root entity with its scalar columns, the two
nullable foreign keys, and the association fields populated by preloading. -/
structure Alert where
  id : Nat := 0
  name : String := ""
  displayName : String := ""
  description : Option String := none
  status : String := "ENABLED"
  createTime : Option Int := none
  lastModifiedTime : Option Int := none
  configurationId : Option Nat := none
  scheduleId : Option Nat := none
  configuration : Option AlertConfiguration := none
  schedule : Option AlertSchedule := none
  tags : List AlertTag := []
  queries : List AlertQuery := []
deriving DecidableEq, Repr

/-! ## Stored rows (one structure per table of sql/schema.sql) -/

/-- Row of the alerts table. -/
structure AlertRow where
  id : Nat
  name : String
  displayName : String
  description : Option String
  status : String
  createTime : Option Int
  lastModifiedTime : Option Int
  configurationId : Option Nat
  scheduleId : Option Nat
deriving DecidableEq, Repr

/-- Row of the alert_configurations table. -/
structure ConfigRow where
  id : Nat
  alertId : Nat
  autoAnnotationFlag : Option Bool
  dashboard : Option String
  muteUntil : Option Int
  noDataFire : Option Bool
  noDataSeverity : Option Int
  threshold : Option Int
  type : Option String
  version : Option String
  sendResolved : Option Bool
  conditionConfigId : Option Nat
  groupConfigId : Option Nat
  policyConfigId : Option Nat
  templateConfigId : Option Nat
  sinkAlerthubConfigId : Option Nat
  sinkCmsConfigId : Option Nat
  sinkEventStoreConfigId : Option Nat
deriving DecidableEq, Repr

/-- Row of the condition_configurations table (used both for sub-block
condition configs and for severity eval conditions). -/
structure ConditionRow where
  id : Nat
  alertConfigId : Nat
  condition : Option String
  countCondition : Option String
deriving DecidableEq, Repr

/-- Row of the group_configurations table. -/
structure GroupRow where
  id : Nat
  alertConfigId : Nat
  fields : Option String
  type : Option String
deriving DecidableEq, Repr

/-- Row of the policy_configurations table. -/
structure PolicyRow where
  id : Nat
  alertConfigId : Nat
  actionPolicyId : Option String
  alertPolicyId : Option String
  repeatInterval : Option String
deriving DecidableEq, Repr

/-- Row of the template_configurations table. -/
structure TemplateRow where
  id : Nat
  alertConfigId : Nat
  templateId : Option String
  lang : Option String
  type : Option String
  version : Option String
  aonotations : Option String
  tokens : Option String
deriving DecidableEq, Repr

/-- Row of the sink_alerthub_configurations table. -/
structure SinkAlerthubRow where
  id : Nat
  alertConfigId : Nat
  enabled : Option Bool
deriving DecidableEq, Repr

/-- Row of the sink_cms_configurations table. -/
structure SinkCmsRow where
  id : Nat
  alertConfigId : Nat
  enabled : Option Bool
deriving DecidableEq, Repr

/-- Row of the sink_event_store_configurations table. -/
structure SinkEventStoreRow where
  id : Nat
  alertConfigId : Nat
  enabled : Option Bool
  endpoint : Option String
  eventStore : Option String
  project : Option String
  roleArn : Option String
deriving DecidableEq, Repr

/-- Row of the severity_configurations table. -/
structure SeverityRow where
  id : Nat
  alertConfigId : Nat
  severity : Option Int
  evalConditionId : Option Nat
deriving DecidableEq, Repr

/-- Row of the join_configurations table. -/
structure JoinRow where
  id : Nat
  alertConfigId : Nat
  joinType : Option String
  joinConfig : Option String
deriving DecidableEq, Repr

/-- Row of the alert_schedules table. -/
structure ScheduleRow where
  id : Nat
  alertId : Nat
  cronExpression : Option String
  delay : Option Int
  interval : Option String
  runImmediately : Option Bool
  timeZone : Option String
  type : String
deriving DecidableEq, Repr

/-- Row of the alert_tags table. -/
structure TagRow where
  id : Nat
  alertId : Nat
  tagType : String
  tagKey : String
  tagValue : Option String
deriving DecidableEq, Repr

/-- Row of the alert_queries table. -/
structure QueryRow where
  id : Nat
  alertId : Nat
  chartTitle : Option String
  dashboardId : Option String
  endTime : Option String
  powerSqlMode : Option String
  project : Option String
  query : String
  region : Option String
  roleArn : Option String
  start : Option String
  store : Option String
  storeType : Option String
  timeSpanType : Option String
  ui : Option String
deriving DecidableEq, Repr

/-- Write events recorded by the embedded store, one per SQL statement a
store operation issues, in issue order.  They make the persistence order of
the multi-step transactions observable. -/
inductive Ev where
  | insAlert (id : Nat)
  | insConfig (id : Nat)
  | insCondition (id : Nat)
  | insGroup (id : Nat)
  | insPolicy (id : Nat)
  | insTemplate (id : Nat)
  | insSinkAlerthub (id : Nat)
  | insSinkCms (id : Nat)
  | insSinkEventStore (id : Nat)
  | insSeverity (id : Nat)
  | insJoin (id : Nat)
  | insSchedule (id : Nat)
  | insTag (id : Nat)
  | insQuery (id : Nat)
  | patchAlert (id : Nat)
  | updAlert (id : Nat)
  | updConfig (id : Nat)
  | updCondition (id : Nat)
  | updGroup (id : Nat)
  | updPolicy (id : Nat)
  | updTemplate (id : Nat)
  | updSinkAlerthub (id : Nat)
  | updSinkCms (id : Nat)
  | updSinkEventStore (id : Nat)
  | patchConfigSlot (configId : Nat)
  | delSeverities (configId : Nat)
  | delJoins (configId : Nat)
  | delConfigs (alertId : Nat)
  | delSchedules (alertId : Nat)
  | delTags (alertId : Nat)
  | delQueries (alertId : Nat)
  | delAlert (id : Nat)
deriving DecidableEq, Repr

/-- The relational store: one list of rows per table, the AUTO_INCREMENT
counter of each table, and the write-event log. -/
structure DB where
  alerts : List AlertRow := []
  configs : List ConfigRow := []
  conditions : List ConditionRow := []
  groups : List GroupRow := []
  policies : List PolicyRow := []
  templates : List TemplateRow := []
  sinkAlerthubs : List SinkAlerthubRow := []
  sinkCmss : List SinkCmsRow := []
  sinkEventStores : List SinkEventStoreRow := []
  severities : List SeverityRow := []
  joins : List JoinRow := []
  schedules : List ScheduleRow := []
  tags : List TagRow := []
  queries : List QueryRow := []
  nextAlertId : Nat := 1
  nextConfigId : Nat := 1
  nextConditionId : Nat := 1
  nextGroupId : Nat := 1
  nextPolicyId : Nat := 1
  nextTemplateId : Nat := 1
  nextSinkAlerthubId : Nat := 1
  nextSinkCmsId : Nat := 1
  nextSinkEventStoreId : Nat := 1
  nextSeverityId : Nat := 1
  nextJoinId : Nat := 1
  nextScheduleId : Nat := 1
  nextTagId : Nat := 1
  nextQueryId : Nat := 1
  log : List Ev := []
deriving DecidableEq, Repr

/-- The store with no rows and all counters at 1. -/
def emptyDB : DB := {}

/-! ## Insertion and update primitives (one per SQL statement shape) -/

/-- Inserts the bare root record with only scalar fields, as
CreateWithTransaction step 1 builds it (no foreign keys yet).  Fails with a
duplicate-key error when the alerts table's unique index on name is hit. -/
def DB.insAlert (db : DB) (a : Alert) : Except StoreErr (Nat × DB) :=
  if db.alerts.any (fun r => r.name == a.name) then .error .duplicateKey
  else
    let i := db.nextAlertId
    .ok (i, { db with
      alerts := db.alerts ++ [⟨i, a.name, a.displayName, a.description, a.status,
        a.createTime, a.lastModifiedTime, none, none⟩]
      nextAlertId := i + 1
      log := db.log ++ [Ev.insAlert i] })

/-- Inserts an alert_configurations row. -/
def DB.insConfig (db : DB) (c : ConfigRow) : Nat × DB :=
  let i := db.nextConfigId
  (i, { db with
    configs := db.configs ++ [{ c with id := i }]
    nextConfigId := i + 1
    log := db.log ++ [Ev.insConfig i] })

/-- Inserts a condition_configurations row (sub-block or eval condition). -/
def DB.insCondition (db : DB) (c : ConditionConfiguration) : Nat × DB :=
  let i := db.nextConditionId
  (i, { db with
    conditions := db.conditions ++ [⟨i, c.alertConfigId, c.condition, c.countCondition⟩]
    nextConditionId := i + 1
    log := db.log ++ [Ev.insCondition i] })

/-- Inserts a group_configurations row. -/
def DB.insGroup (db : DB) (c : GroupConfiguration) : Nat × DB :=
  let i := db.nextGroupId
  (i, { db with
    groups := db.groups ++ [⟨i, c.alertConfigId, c.fields, c.type⟩]
    nextGroupId := i + 1
    log := db.log ++ [Ev.insGroup i] })

/-- Inserts a policy_configurations row. -/
def DB.insPolicy (db : DB) (c : PolicyConfiguration) : Nat × DB :=
  let i := db.nextPolicyId
  (i, { db with
    policies := db.policies ++
      [⟨i, c.alertConfigId, c.actionPolicyId, c.alertPolicyId, c.repeatInterval⟩]
    nextPolicyId := i + 1
    log := db.log ++ [Ev.insPolicy i] })

/-- Inserts a template_configurations row. -/
def DB.insTemplate (db : DB) (c : TemplateConfiguration) : Nat × DB :=
  let i := db.nextTemplateId
  (i, { db with
    templates := db.templates ++
      [⟨i, c.alertConfigId, c.templateId, c.lang, c.type, c.version,
        c.aonotations, c.tokens⟩]
    nextTemplateId := i + 1
    log := db.log ++ [Ev.insTemplate i] })

/-- Inserts a sink_alerthub_configurations row. -/
def DB.insSinkAlerthub (db : DB) (c : SinkAlerthubConfiguration) : Nat × DB :=
  let i := db.nextSinkAlerthubId
  (i, { db with
    sinkAlerthubs := db.sinkAlerthubs ++ [⟨i, c.alertConfigId, c.enabled⟩]
    nextSinkAlerthubId := i + 1
    log := db.log ++ [Ev.insSinkAlerthub i] })

/-- Inserts a sink_cms_configurations row. -/
def DB.insSinkCms (db : DB) (c : SinkCmsConfiguration) : Nat × DB :=
  let i := db.nextSinkCmsId
  (i, { db with
    sinkCmss := db.sinkCmss ++ [⟨i, c.alertConfigId, c.enabled⟩]
    nextSinkCmsId := i + 1
    log := db.log ++ [Ev.insSinkCms i] })

/-- Inserts a sink_event_store_configurations row. -/
def DB.insSinkEventStore (db : DB) (c : SinkEventStoreConfiguration) : Nat × DB :=
  let i := db.nextSinkEventStoreId
  (i, { db with
    sinkEventStores := db.sinkEventStores ++
      [⟨i, c.alertConfigId, c.enabled, c.endpoint, c.eventStore, c.project, c.roleArn⟩]
    nextSinkEventStoreId := i + 1
    log := db.log ++ [Ev.insSinkEventStore i] })

/-- Inserts a batch of severity_configurations rows (one gorm Create on the
slice), assigning consecutive fresh identities. -/
def DB.insSeverityBatch : DB → List SeverityRow → DB
  | db, [] => db
  | db, r :: rest =>
      let i := db.nextSeverityId
      DB.insSeverityBatch
        { db with
          severities := db.severities ++ [{ r with id := i }]
          nextSeverityId := i + 1
          log := db.log ++ [Ev.insSeverity i] } rest

/-- Inserts a batch of join_configurations rows. -/
def DB.insJoinBatch : DB → List JoinRow → DB
  | db, [] => db
  | db, r :: rest =>
      let i := db.nextJoinId
      DB.insJoinBatch
        { db with
          joins := db.joins ++ [{ r with id := i }]
          nextJoinId := i + 1
          log := db.log ++ [Ev.insJoin i] } rest

/-- Inserts an alert_schedules row built from the given schedule with the
given owning alert id, as the create/update paths build `scheduleToCreate`. -/
def DB.insSchedule (db : DB) (aid : Nat) (s : AlertSchedule) : Nat × DB :=
  let i := db.nextScheduleId
  (i, { db with
    schedules := db.schedules ++
      [⟨i, aid, s.cronExpression, s.delay, s.interval, s.runImmediately,
        s.timeZone, s.type⟩]
    nextScheduleId := i + 1
    log := db.log ++ [Ev.insSchedule i] })

/-- Decides whether a batch of incoming tags collides on the alert_tags
table's unique key (alert_id, tag_type, tag_key) with already-stored rows of
the same alert. -/
def tagExistingConflict (existing : List TagRow) (aid : Nat) (ts : List AlertTag) : Bool :=
  ts.any (fun t => existing.any (fun r =>
    r.alertId == aid && r.tagType == t.tagType && r.tagKey == t.tagKey))

/-- Decides whether a batch of incoming tags collides with itself on
(tag_type, tag_key); all rows of one batch share the alert id. -/
def tagBatchDup : List AlertTag → Bool
  | [] => false
  | t :: rest =>
      rest.any (fun u => u.tagType == t.tagType && u.tagKey == t.tagKey) || tagBatchDup rest

/-- Appends tag rows one by one with consecutive fresh identities (the body
of a successful tag batch insert). -/
def DB.insTagRows : DB → Nat → List AlertTag → DB
  | db, _, [] => db
  | db, aid, t :: rest =>
      let i := db.nextTagId
      DB.insTagRows
        { db with
          tags := db.tags ++ [⟨i, aid, t.tagType, t.tagKey, t.tagValue⟩]
          nextTagId := i + 1
          log := db.log ++ [Ev.insTag i] } aid rest

/-- Inserts a batch of alert_tags rows for the given alert, enforcing the
table's unique key: a collision fails the whole statement. -/
def DB.insTagBatch (db : DB) (aid : Nat) (ts : List AlertTag) : Except StoreErr DB :=
  if tagExistingConflict db.tags aid ts || tagBatchDup ts then .error .duplicateKey
  else .ok (DB.insTagRows db aid ts)

/-- Inserts a batch of alert_queries rows for the given alert. -/
def DB.insQueryBatch : DB → Nat → List AlertQuery → DB
  | db, _, [] => db
  | db, aid, q :: rest =>
      let i := db.nextQueryId
      DB.insQueryBatch
        { db with
          queries := db.queries ++
            [⟨i, aid, q.chartTitle, q.dashboardId, q.endTime, q.powerSqlMode,
              q.project, q.query, q.region, q.roleArn, q.start, q.store,
              q.storeType, q.timeSpanType, q.ui⟩]
          nextQueryId := i + 1
          log := db.log ++ [Ev.insQuery i] } aid rest

/-- Patches the root record's configuration_id / schedule_id columns with
the present values only, as the final Updates map of the create/update
transactions does. -/
def DB.patchAlertForeignKeys (db : DB) (aid : Nat) (c s : Option Nat) : DB :=
  { db with
    alerts := db.alerts.map (fun r =>
      if r.id == aid then
        { r with
          configurationId := (match c with | some v => some v | none => r.configurationId)
          scheduleId := (match s with | some v => some v | none => r.scheduleId) }
      else r)
    log := db.log ++ [Ev.patchAlert aid] }

/-! ## CreateWithTransaction (alert_store.go lines 176-391)

The transaction body is threaded through `Tx`, which carries the tentative
state and the index of the next write statement; `fails` injects a forced
failure at a given write index, modelling an arbitrary mid-transaction
error.  An `Except.error` outcome models gorm's rollback: the caller's
state is unchanged (see `createRun`). -/

/-- Tentative transaction state: the database plus the index of the next
write statement, used for failure injection. -/
structure Tx where
  db : DB
  opIdx : Nat
deriving Repr

/-- Runs one write statement that returns a fresh identity. -/
def step (fails : Nat → Bool) (tx : Tx) (f : DB → Nat × DB) : Except StoreErr (Nat × Tx) :=
  if fails tx.opIdx then .error .injectedFailure
  else
    let p := f tx.db
    .ok (p.1, ⟨p.2, tx.opIdx + 1⟩)

/-- Runs one write statement with no interesting return value. -/
def stepD (fails : Nat → Bool) (tx : Tx) (f : DB → DB) : Except StoreErr Tx :=
  if fails tx.opIdx then .error .injectedFailure
  else .ok ⟨f tx.db, tx.opIdx + 1⟩

/-- Runs one write statement that can itself fail (constraint violation). -/
def stepE (fails : Nat → Bool) (tx : Tx) (f : DB → Except StoreErr (Nat × DB)) :
    Except StoreErr (Nat × Tx) :=
  if fails tx.opIdx then .error .injectedFailure
  else do
    let p ← f tx.db
    .ok (p.1, ⟨p.2, tx.opIdx + 1⟩)

/-- Runs one write statement returning a whole database and possibly
failing (batch insert with a unique key). -/
def stepB (fails : Nat → Bool) (tx : Tx) (f : DB → Except StoreErr DB) : Except StoreErr Tx :=
  if fails tx.opIdx then .error .injectedFailure
  else do
    let d ← f tx.db
    .ok ⟨d, tx.opIdx + 1⟩

/-- Walks the severity list as CreateWithTransaction step 4 does: for each
severity whose EvalCondition is present, first create the eval condition
(the create path stamps the configuration id on it) and capture its
identity; the prepared severity rows are returned for the subsequent batch
insert, each carrying the configuration id. -/
def sevPrepareCreate (fails : Nat → Bool) (cid : Nat) :
    Tx → List SeverityConfiguration → Except StoreErr (List SeverityRow × Tx)
  | tx, [] => .ok ([], tx)
  | tx, s :: rest =>
      match s.evalCondition with
      | some ec => do
          let (eid, tx') ← step fails tx (fun d => d.insCondition { ec with alertConfigId := cid })
          let (ps, tx'') ← sevPrepareCreate fails cid tx' rest
          .ok ({ id := 0, alertConfigId := cid, severity := s.severity,
                 evalConditionId := some eid } :: ps, tx'')
      | none => do
          let (ps, tx') ← sevPrepareCreate fails cid tx rest
          .ok ({ id := 0, alertConfigId := cid, severity := s.severity,
                 evalConditionId := s.evalConditionId } :: ps, tx')

/-- Embeds CreateWithTransaction: (1) the bare root record; (2) the
Configuration row with only its scalar columns and alert_id — its seven
sub-block foreign-key columns are not assigned by this path; (3) each
present sub-block row stamped with the Configuration's identity in its
alert_config_id field; (4) severity eval conditions, the severity batch and
the join batch; (5) the Schedule; (6) the Tags; (7) the Queries; (8) the
patch of the root record's configuration_id/schedule_id.  Returns the new
root identity and the committed state. -/
def createWithTransaction (fails : Nat → Bool) (db : DB) (alert : Alert) :
    Except StoreErr (Nat × DB) := do
  let tx0 : Tx := ⟨db, 0⟩
  let (aid, tx1) ← stepE fails tx0 (fun d => d.insAlert alert)
  let (cfgPatch, txA) ←
    match alert.configuration with
    | none => Except.ok (alert.configurationId, tx1)
    | some cfg => do
        let (cid, tx2) ← step fails tx1 (fun d => d.insConfig
          { id := 0, alertId := aid,
            autoAnnotationFlag := cfg.autoAnnotationFlag, dashboard := cfg.dashboard,
            muteUntil := cfg.muteUntil, noDataFire := cfg.noDataFire,
            noDataSeverity := cfg.noDataSeverity, threshold := cfg.threshold,
            type := cfg.type, version := cfg.version, sendResolved := cfg.sendResolved,
            conditionConfigId := none, groupConfigId := none, policyConfigId := none,
            templateConfigId := none, sinkAlerthubConfigId := none,
            sinkCmsConfigId := none, sinkEventStoreConfigId := none })
        let tx3 ← match cfg.conditionConfig with
          | none => Except.ok tx2
          | some cc => do
              let (_, t) ← step fails tx2 (fun d => d.insCondition { cc with alertConfigId := cid })
              Except.ok t
        let tx4 ← match cfg.groupConfig with
          | none => Except.ok tx3
          | some gc => do
              let (_, t) ← step fails tx3 (fun d => d.insGroup { gc with alertConfigId := cid })
              Except.ok t
        let tx5 ← match cfg.policyConfig with
          | none => Except.ok tx4
          | some pc => do
              let (_, t) ← step fails tx4 (fun d => d.insPolicy { pc with alertConfigId := cid })
              Except.ok t
        let tx6 ← match cfg.templateConfig with
          | none => Except.ok tx5
          | some tc => do
              let (_, t) ← step fails tx5 (fun d => d.insTemplate { tc with alertConfigId := cid })
              Except.ok t
        let tx7 ← match cfg.sinkAlerthubConfig with
          | none => Except.ok tx6
          | some sc => do
              let (_, t) ← step fails tx6 (fun d => d.insSinkAlerthub { sc with alertConfigId := cid })
              Except.ok t
        let tx8 ← match cfg.sinkCmsConfig with
          | none => Except.ok tx7
          | some sc => do
              let (_, t) ← step fails tx7 (fun d => d.insSinkCms { sc with alertConfigId := cid })
              Except.ok t
        let tx9 ← match cfg.sinkEventStoreConfig with
          | none => Except.ok tx8
          | some sc => do
              let (_, t) ← step fails tx8 (fun d => d.insSinkEventStore { sc with alertConfigId := cid })
              Except.ok t
        let tx10 ← if cfg.severityConfigs.isEmpty then Except.ok tx9 else do
          let (prepared, t) ← sevPrepareCreate fails cid tx9 cfg.severityConfigs
          stepD fails t (fun d => d.insSeverityBatch prepared)
        let tx11 ← if cfg.joinConfigs.isEmpty then Except.ok tx10 else
          stepD fails tx10 (fun d => d.insJoinBatch
            (cfg.joinConfigs.map (fun j =>
              { id := 0, alertConfigId := cid, joinType := j.joinType,
                joinConfig := j.joinConfig })))
        Except.ok (some cid, tx11)
  let (schedPatch, txB) ←
    match alert.schedule with
    | none => Except.ok (alert.scheduleId, txA)
    | some s => do
        let (sid, t) ← step fails txA (fun d => d.insSchedule aid s)
        Except.ok (some sid, t)
  let txC ← if alert.tags.isEmpty then Except.ok txB else
    stepB fails txB (fun d => d.insTagBatch aid alert.tags)
  let txD ← if alert.queries.isEmpty then Except.ok txC else
    stepD fails txC (fun d => d.insQueryBatch aid alert.queries)
  let txE ← match cfgPatch, schedPatch with
    | none, none => Except.ok txD
    | _, _ => stepD fails txD (fun d => d.patchAlertForeignKeys aid cfgPatch schedPatch)
  .ok (aid, txE.db)

/-- Oracle that injects no failure: the ordinary execution of the
transaction body. -/
def noFail : Nat → Bool := fun _ => false

/-- Runs CreateWithTransaction under gorm's transaction semantics: on any
error the state observed by later operations is the original one
(rollback); on success it is the committed one. -/
def createRun (fails : Nat → Bool) (db : DB) (alert : Alert) : Option StoreErr × DB :=
  match createWithTransaction fails db alert with
  | .ok (_, d) => (none, d)
  | .error e => (some e, db)

/-! ## Read path: GetByID / GetByName (alert_store.go lines 44-82) -/

/-- Converts a stored condition row back to the in-memory model. -/
def ConditionRow.toModel (r : ConditionRow) : ConditionConfiguration :=
  { id := r.id, alertConfigId := r.alertConfigId, condition := r.condition,
    countCondition := r.countCondition }

/-- Converts a stored group row back to the in-memory model. -/
def GroupRow.toModel (r : GroupRow) : GroupConfiguration :=
  { id := r.id, alertConfigId := r.alertConfigId, fields := r.fields, type := r.type }

/-- Converts a stored policy row back to the in-memory model. -/
def PolicyRow.toModel (r : PolicyRow) : PolicyConfiguration :=
  { id := r.id, alertConfigId := r.alertConfigId, actionPolicyId := r.actionPolicyId,
    alertPolicyId := r.alertPolicyId, repeatInterval := r.repeatInterval }

/-- Converts a stored template row back to the in-memory model. -/
def TemplateRow.toModel (r : TemplateRow) : TemplateConfiguration :=
  { id := r.id, alertConfigId := r.alertConfigId, templateId := r.templateId,
    lang := r.lang, type := r.type, version := r.version,
    aonotations := r.aonotations, tokens := r.tokens }

/-- Converts a stored schedule row back to the in-memory model. -/
def ScheduleRow.toModel (r : ScheduleRow) : AlertSchedule :=
  { id := r.id, alertId := r.alertId, cronExpression := r.cronExpression,
    delay := r.delay, interval := r.interval, runImmediately := r.runImmediately,
    timeZone := r.timeZone, type := r.type }

/-- Converts a stored tag row back to the in-memory model. -/
def TagRow.toModel (r : TagRow) : AlertTag :=
  { id := r.id, alertId := r.alertId, tagType := r.tagType, tagKey := r.tagKey,
    tagValue := r.tagValue }

/-- Converts a stored query row back to the in-memory model. -/
def QueryRow.toModel (r : QueryRow) : AlertQuery :=
  { id := r.id, alertId := r.alertId, chartTitle := r.chartTitle,
    dashboardId := r.dashboardId, endTime := r.endTime,
    powerSqlMode := r.powerSqlMode, project := r.project, query := r.query,
    region := r.region, roleArn := r.roleArn, start := r.start, store := r.store,
    storeType := r.storeType, timeSpanType := r.timeSpanType, ui := r.ui }

/-- Modelled from the spec: the current internal/models source defining the
gorm association directions is not present under src (the models file that
is present predates alert_store.go), so the direction of the sub-block
associations follows the spec, which fixes ownership of the six optional
sub-blocks as a nullable foreign key held by the parent Configuration row —
consistent with sql/schema.sql and with the upsert helpers of
alert_store.go, which read and patch the Configuration row's *_config_id
columns.  Hence the preloads Configuration.ConditionConfig / GroupConfig /
PolicyConfig / TemplateConfig resolve through those columns, and
Configuration.SeverityConfigs resolves through severity rows'
alert_config_id.  The preload list itself is exactly the one issued by
GetByID/GetByName in alert_store.go: JoinConfigs, the three Sink blocks,
and the severities' EvalCondition are not preloaded and come back empty. -/
def hydrateConfiguration (db : DB) (cid : Nat) : Option AlertConfiguration :=
  (db.configs.find? (fun c => c.id == cid)).map (fun c =>
    { id := c.id, alertId := c.alertId,
      autoAnnotationFlag := c.autoAnnotationFlag, dashboard := c.dashboard,
      muteUntil := c.muteUntil, noDataFire := c.noDataFire,
      noDataSeverity := c.noDataSeverity, threshold := c.threshold,
      type := c.type, version := c.version, sendResolved := c.sendResolved,
      conditionConfigId := c.conditionConfigId, groupConfigId := c.groupConfigId,
      policyConfigId := c.policyConfigId, templateConfigId := c.templateConfigId,
      sinkAlerthubConfigId := c.sinkAlerthubConfigId,
      sinkCmsConfigId := c.sinkCmsConfigId,
      sinkEventStoreConfigId := c.sinkEventStoreConfigId,
      conditionConfig := c.conditionConfigId.bind (fun i =>
        (db.conditions.find? (fun r => r.id == i)).map ConditionRow.toModel),
      groupConfig := c.groupConfigId.bind (fun i =>
        (db.groups.find? (fun r => r.id == i)).map GroupRow.toModel),
      policyConfig := c.policyConfigId.bind (fun i =>
        (db.policies.find? (fun r => r.id == i)).map PolicyRow.toModel),
      templateConfig := c.templateConfigId.bind (fun i =>
        (db.templates.find? (fun r => r.id == i)).map TemplateRow.toModel),
      severityConfigs := (db.severities.filter (fun s => s.alertConfigId == c.id)).map
        (fun s => { id := s.id, alertConfigId := s.alertConfigId,
                    severity := s.severity, evalConditionId := s.evalConditionId,
                    evalCondition := none }),
      joinConfigs := [],
      sinkAlerthubConfig := none, sinkCmsConfig := none,
      sinkEventStoreConfig := none })

/-- Builds the hydrated aggregate GetByID/GetByName return for a root row:
the preloaded Configuration (through the root's configuration_id), the
Schedule (through schedule_id), and the Tags and Queries of the alert. -/
def hydrateAlert (db : DB) (a : AlertRow) : Alert :=
  { id := a.id, name := a.name, displayName := a.displayName,
    description := a.description, status := a.status, createTime := a.createTime,
    lastModifiedTime := a.lastModifiedTime, configurationId := a.configurationId,
    scheduleId := a.scheduleId,
    configuration := a.configurationId.bind (hydrateConfiguration db),
    schedule := a.scheduleId.bind (fun i =>
      (db.schedules.find? (fun r => r.id == i)).map ScheduleRow.toModel),
    tags := (db.tags.filter (fun t => t.alertId == a.id)).map TagRow.toModel,
    queries := (db.queries.filter (fun q => q.alertId == a.id)).map QueryRow.toModel }

/-- Embeds GetByID: primary-key lookup plus the preloads, or a not-found
error. -/
def getByID (db : DB) (id : Nat) : Except StoreErr Alert :=
  match db.alerts.find? (fun r => r.id == id) with
  | none => .error .notFound
  | some a => .ok (hydrateAlert db a)

/-- Embeds GetByName: unique-name lookup plus the preloads, or a not-found
error. -/
def getByName (db : DB) (name : String) : Except StoreErr Alert :=
  match db.alerts.find? (fun r => r.name == name) with
  | none => .error .notFound
  | some a => .ok (hydrateAlert db a)

/-! ## Delete (alert_store.go lines 90-124 and 394-415) -/

/-- Embeds deleteConfigurationAssociations: looks up the alert's
Configuration id (first row by primary key) and deletes the severity and
join rows owned by it; without a Configuration it does nothing.  The
Configuration row itself is left for the caller. -/
def deleteConfigurationAssociations (db : DB) (alertId : Nat) : DB :=
  match db.configs.find? (fun c => c.alertId == alertId) with
  | none => db
  | some c =>
      { db with
        severities := db.severities.filter (fun s => !(s.alertConfigId == c.id))
        joins := db.joins.filter (fun j => !(j.alertConfigId == c.id))
        log := db.log ++ [Ev.delSeverities c.id, Ev.delJoins c.id] }

/-- Embeds Delete: one transaction deleting, in order, the Configuration's
severity/join rows, the Configuration row, the Schedule rows, the Tag rows,
the Query rows, and finally the root record.  The six sub-block tables are
not touched. -/
def deleteAlert (db : DB) (id : Nat) : DB :=
  let d1 := deleteConfigurationAssociations db id
  let d2 := { d1 with
    configs := d1.configs.filter (fun c => !(c.alertId == id))
    log := d1.log ++ [Ev.delConfigs id] }
  let d3 := { d2 with
    schedules := d2.schedules.filter (fun s => !(s.alertId == id))
    log := d2.log ++ [Ev.delSchedules id] }
  let d4 := { d3 with
    tags := d3.tags.filter (fun t => !(t.alertId == id))
    log := d3.log ++ [Ev.delTags id] }
  let d5 := { d4 with
    queries := d4.queries.filter (fun q => !(q.alertId == id))
    log := d4.log ++ [Ev.delQueries id] }
  { d5 with
    alerts := d5.alerts.filter (fun a => !(a.id == id))
    log := d5.log ++ [Ev.delAlert id] }

/-! ## Upserts of the six optional sub-blocks (alert_store.go lines 788-1030)

Each upsert reads the owning Configuration row's foreign-key column for its
block.  When the slot is empty (NULL or 0) it inserts the block and patches
the slot with the fresh identity; when the slot is occupied it updates the
fixed column subset of the existing row in place and reuses its identity. -/

/-- Embeds upsertConditionConfig; the occupied branch refreshes only the
condition and count_condition columns. -/
def upsertConditionConfig (db : DB) (alertConfigId : Nat) (cfg : ConditionConfiguration) :
    Except StoreErr (Nat × DB) :=
  match db.configs.find? (fun c => c.id == alertConfigId) with
  | none => .error .notFound
  | some c =>
      let createNew : DB → Nat × DB := fun d =>
        let p := d.insCondition { cfg with id := 0 }
        (p.1, { p.2 with
          configs := p.2.configs.map (fun r =>
            if r.id == alertConfigId then { r with conditionConfigId := some p.1 } else r)
          log := p.2.log ++ [Ev.patchConfigSlot alertConfigId] })
      match c.conditionConfigId with
      | some eid =>
          if eid != 0 then
            .ok (eid, { db with
              conditions := db.conditions.map (fun r =>
                if r.id == eid then
                  { r with condition := cfg.condition, countCondition := cfg.countCondition }
                else r)
              log := db.log ++ [Ev.updCondition eid] })
          else .ok (createNew db)
      | none => .ok (createNew db)

/-- Embeds upsertGroupConfig; the occupied branch refreshes only the
fields and type columns. -/
def upsertGroupConfig (db : DB) (alertConfigId : Nat) (cfg : GroupConfiguration) :
    Except StoreErr (Nat × DB) :=
  match db.configs.find? (fun c => c.id == alertConfigId) with
  | none => .error .notFound
  | some c =>
      let createNew : DB → Nat × DB := fun d =>
        let p := d.insGroup { cfg with id := 0 }
        (p.1, { p.2 with
          configs := p.2.configs.map (fun r =>
            if r.id == alertConfigId then { r with groupConfigId := some p.1 } else r)
          log := p.2.log ++ [Ev.patchConfigSlot alertConfigId] })
      match c.groupConfigId with
      | some eid =>
          if eid != 0 then
            .ok (eid, { db with
              groups := db.groups.map (fun r =>
                if r.id == eid then { r with fields := cfg.fields, type := cfg.type } else r)
              log := db.log ++ [Ev.updGroup eid] })
          else .ok (createNew db)
      | none => .ok (createNew db)

/-- Embeds upsertPolicyConfig; the occupied branch refreshes only the
alert_policy_id, action_policy_id and repeat_interval columns. -/
def upsertPolicyConfig (db : DB) (alertConfigId : Nat) (cfg : PolicyConfiguration) :
    Except StoreErr (Nat × DB) :=
  match db.configs.find? (fun c => c.id == alertConfigId) with
  | none => .error .notFound
  | some c =>
      let createNew : DB → Nat × DB := fun d =>
        let p := d.insPolicy { cfg with id := 0 }
        (p.1, { p.2 with
          configs := p.2.configs.map (fun r =>
            if r.id == alertConfigId then { r with policyConfigId := some p.1 } else r)
          log := p.2.log ++ [Ev.patchConfigSlot alertConfigId] })
      match c.policyConfigId with
      | some eid =>
          if eid != 0 then
            .ok (eid, { db with
              policies := db.policies.map (fun r =>
                if r.id == eid then
                  { r with alertPolicyId := cfg.alertPolicyId,
                           actionPolicyId := cfg.actionPolicyId,
                           repeatInterval := cfg.repeatInterval }
                else r)
              log := db.log ++ [Ev.updPolicy eid] })
          else .ok (createNew db)
      | none => .ok (createNew db)

/-- Embeds upsertTemplateConfig; the occupied branch refreshes the
template_id, lang, type, version, aonotations and tokens columns. -/
def upsertTemplateConfig (db : DB) (alertConfigId : Nat) (cfg : TemplateConfiguration) :
    Except StoreErr (Nat × DB) :=
  match db.configs.find? (fun c => c.id == alertConfigId) with
  | none => .error .notFound
  | some c =>
      let createNew : DB → Nat × DB := fun d =>
        let p := d.insTemplate { cfg with id := 0 }
        (p.1, { p.2 with
          configs := p.2.configs.map (fun r =>
            if r.id == alertConfigId then { r with templateConfigId := some p.1 } else r)
          log := p.2.log ++ [Ev.patchConfigSlot alertConfigId] })
      match c.templateConfigId with
      | some eid =>
          if eid != 0 then
            .ok (eid, { db with
              templates := db.templates.map (fun r =>
                if r.id == eid then
                  { r with templateId := cfg.templateId, lang := cfg.lang,
                           type := cfg.type, version := cfg.version,
                           aonotations := cfg.aonotations, tokens := cfg.tokens }
                else r)
              log := db.log ++ [Ev.updTemplate eid] })
          else .ok (createNew db)
      | none => .ok (createNew db)

/-- Embeds upsertSinkAlerthubConfig; the occupied branch refreshes only the
enabled column. -/
def upsertSinkAlerthubConfig (db : DB) (alertConfigId : Nat)
    (cfg : SinkAlerthubConfiguration) : Except StoreErr (Nat × DB) :=
  match db.configs.find? (fun c => c.id == alertConfigId) with
  | none => .error .notFound
  | some c =>
      let createNew : DB → Nat × DB := fun d =>
        let p := d.insSinkAlerthub { cfg with id := 0 }
        (p.1, { p.2 with
          configs := p.2.configs.map (fun r =>
            if r.id == alertConfigId then { r with sinkAlerthubConfigId := some p.1 } else r)
          log := p.2.log ++ [Ev.patchConfigSlot alertConfigId] })
      match c.sinkAlerthubConfigId with
      | some eid =>
          if eid != 0 then
            .ok (eid, { db with
              sinkAlerthubs := db.sinkAlerthubs.map (fun r =>
                if r.id == eid then { r with enabled := cfg.enabled } else r)
              log := db.log ++ [Ev.updSinkAlerthub eid] })
          else .ok (createNew db)
      | none => .ok (createNew db)

/-- Embeds upsertSinkCmsConfig; the occupied branch refreshes only the
enabled column. -/
def upsertSinkCmsConfig (db : DB) (alertConfigId : Nat)
    (cfg : SinkCmsConfiguration) : Except StoreErr (Nat × DB) :=
  match db.configs.find? (fun c => c.id == alertConfigId) with
  | none => .error .notFound
  | some c =>
      let createNew : DB → Nat × DB := fun d =>
        let p := d.insSinkCms { cfg with id := 0 }
        (p.1, { p.2 with
          configs := p.2.configs.map (fun r =>
            if r.id == alertConfigId then { r with sinkCmsConfigId := some p.1 } else r)
          log := p.2.log ++ [Ev.patchConfigSlot alertConfigId] })
      match c.sinkCmsConfigId with
      | some eid =>
          if eid != 0 then
            .ok (eid, { db with
              sinkCmss := db.sinkCmss.map (fun r =>
                if r.id == eid then { r with enabled := cfg.enabled } else r)
              log := db.log ++ [Ev.updSinkCms eid] })
          else .ok (createNew db)
      | none => .ok (createNew db)

/-- Embeds upsertSinkEventStoreConfig; the occupied branch refreshes the
enabled, endpoint, event_store, project and role_arn columns. -/
def upsertSinkEventStoreConfig (db : DB) (alertConfigId : Nat)
    (cfg : SinkEventStoreConfiguration) : Except StoreErr (Nat × DB) :=
  match db.configs.find? (fun c => c.id == alertConfigId) with
  | none => .error .notFound
  | some c =>
      let createNew : DB → Nat × DB := fun d =>
        let p := d.insSinkEventStore { cfg with id := 0 }
        (p.1, { p.2 with
          configs := p.2.configs.map (fun r =>
            if r.id == alertConfigId then { r with sinkEventStoreConfigId := some p.1 } else r)
          log := p.2.log ++ [Ev.patchConfigSlot alertConfigId] })
      match c.sinkEventStoreConfigId with
      | some eid =>
          if eid != 0 then
            .ok (eid, { db with
              sinkEventStores := db.sinkEventStores.map (fun r =>
                if r.id == eid then
                  { r with enabled := cfg.enabled, endpoint := cfg.endpoint,
                           eventStore := cfg.eventStore, project := cfg.project,
                           roleArn := cfg.roleArn }
                else r)
              log := db.log ++ [Ev.updSinkEventStore eid] })
          else .ok (createNew db)
      | none => .ok (createNew db)

/-! ## UpdateWithTransaction (alert_store.go lines 417-525 and 528-786) -/

/-- Walks a severity list as the recreate/update configuration paths do:
eval conditions are created first (these paths do not stamp the
configuration id on the eval condition row), then the severity rows are
prepared for the batch insert with the configuration id. -/
def sevPrepareUpdate (cid : Nat) : DB → List SeverityConfiguration → List SeverityRow × DB
  | db, [] => ([], db)
  | db, s :: rest =>
      match s.evalCondition with
      | some ec =>
          let p := db.insCondition ec
          let q := sevPrepareUpdate cid p.2 rest
          ({ id := 0, alertConfigId := cid, severity := s.severity,
             evalConditionId := some p.1 } :: q.1, q.2)
      | none =>
          let q := sevPrepareUpdate cid db rest
          ({ id := 0, alertConfigId := cid, severity := s.severity,
             evalConditionId := s.evalConditionId } :: q.1, q.2)

/-- Runs one "create the sub-block if present and capture its identity"
step of recreateConfiguration: with the block absent nothing happens and
the captured identity stays empty. -/
def optIns {α : Type} (db : DB) (o : Option α) (f : DB → α → Nat × DB) : Option Nat × DB :=
  match o with
  | none => (none, db)
  | some x =>
      let p := f db x
      (some p.1, p.2)

/-- Embeds recreateConfiguration: creates each present sub-block first,
capturing its identity, then the Configuration row with those identities
embedded in its foreign-key columns, then the severity (with eval
conditions) and join collections.  Returns the new Configuration id. -/
def recreateConfiguration (db : DB) (a : Alert) : Option Nat × DB :=
  match a.configuration with
  | none => (a.configurationId, db)
  | some cfg =>
      let pc := optIns db cfg.conditionConfig DB.insCondition
      let pg := optIns pc.2 cfg.groupConfig DB.insGroup
      let pp := optIns pg.2 cfg.policyConfig DB.insPolicy
      let pt := optIns pp.2 cfg.templateConfig DB.insTemplate
      let pa := optIns pt.2 cfg.sinkAlerthubConfig DB.insSinkAlerthub
      let pm := optIns pa.2 cfg.sinkCmsConfig DB.insSinkCms
      let pe := optIns pm.2 cfg.sinkEventStoreConfig DB.insSinkEventStore
      let pcfg := pe.2.insConfig
        { id := 0, alertId := a.id,
          autoAnnotationFlag := cfg.autoAnnotationFlag, dashboard := cfg.dashboard,
          muteUntil := cfg.muteUntil, noDataFire := cfg.noDataFire,
          noDataSeverity := cfg.noDataSeverity, threshold := cfg.threshold,
          type := cfg.type, version := cfg.version, sendResolved := cfg.sendResolved,
          conditionConfigId := pc.1, groupConfigId := pg.1, policyConfigId := pp.1,
          templateConfigId := pt.1, sinkAlerthubConfigId := pa.1,
          sinkCmsConfigId := pm.1, sinkEventStoreConfigId := pe.1 }
      let cid := pcfg.1
      let d9 := if cfg.severityConfigs.isEmpty then pcfg.2 else
        let q := sevPrepareUpdate cid pcfg.2 cfg.severityConfigs
        q.2.insSeverityBatch q.1
      let d10 := if cfg.joinConfigs.isEmpty then d9 else
        d9.insJoinBatch (cfg.joinConfigs.map (fun j =>
          { id := 0, alertConfigId := cid, joinType := j.joinType,
            joinConfig := j.joinConfig }))
      (some cid, d10)

/-- Runs one "upsert the sub-block if present" step of
updateConfiguration: with the block absent nothing happens. -/
def optUpsert {α : Type} (d : DB) (o : Option α)
    (f : DB → α → Except StoreErr (Nat × DB)) : Except StoreErr DB :=
  match o with
  | none => .ok d
  | some x => do
      let p ← f d x
      .ok p.2

/-- Embeds updateConfiguration: without an existing Configuration row it
recreates one; with one it updates the scalar columns in place, upserts
each present sub-block, and wholesale-replaces the severity and join
collections when the incoming collections are non-empty. -/
def updateConfiguration (db : DB) (a : Alert) : Except StoreErr (Option Nat × DB) :=
  match a.configuration with
  | none => .ok (a.configurationId, db)
  | some cfg =>
      match db.configs.find? (fun c => c.alertId == a.id) with
      | none => .ok (recreateConfiguration db a)
      | some ec => do
          let ecid := ec.id
          let d1 := { db with
            configs := db.configs.map (fun r =>
              if r.id == ecid then
                { r with
                  autoAnnotationFlag := cfg.autoAnnotationFlag
                  dashboard := cfg.dashboard
                  muteUntil := cfg.muteUntil
                  noDataFire := cfg.noDataFire
                  noDataSeverity := cfg.noDataSeverity
                  threshold := cfg.threshold
                  type := cfg.type
                  version := cfg.version
                  sendResolved := cfg.sendResolved }
              else r)
            log := db.log ++ [Ev.updConfig ecid] }
          let d2 ← optUpsert d1 cfg.conditionConfig
            (fun d c => upsertConditionConfig d ecid c)
          let d3 ← optUpsert d2 cfg.groupConfig
            (fun d c => upsertGroupConfig d ecid c)
          let d4 ← optUpsert d3 cfg.policyConfig
            (fun d c => upsertPolicyConfig d ecid c)
          let d5 ← optUpsert d4 cfg.templateConfig
            (fun d c => upsertTemplateConfig d ecid c)
          let d6 ← optUpsert d5 cfg.sinkAlerthubConfig
            (fun d c => upsertSinkAlerthubConfig d ecid c)
          let d7 ← optUpsert d6 cfg.sinkCmsConfig
            (fun d c => upsertSinkCmsConfig d ecid c)
          let d8 ← optUpsert d7 cfg.sinkEventStoreConfig
            (fun d c => upsertSinkEventStoreConfig d ecid c)
          let d9 := if cfg.severityConfigs.isEmpty then d8 else
            let dDel := { d8 with
              severities := d8.severities.filter (fun s => !(s.alertConfigId == ecid))
              log := d8.log ++ [Ev.delSeverities ecid] }
            let q := sevPrepareUpdate ecid dDel cfg.severityConfigs
            q.2.insSeverityBatch q.1
          let d10 := if cfg.joinConfigs.isEmpty then d9 else
            let dDel := { d9 with
              joins := d9.joins.filter (fun j => !(j.alertConfigId == ecid))
              log := d9.log ++ [Ev.delJoins ecid] }
            dDel.insJoinBatch (cfg.joinConfigs.map (fun j =>
              { id := 0, alertConfigId := ecid, joinType := j.joinType,
                joinConfig := j.joinConfig }))
          .ok (some ecid, d10)

/-- Embeds UpdateWithTransaction step 1: the in-place Updates of the root
record's display_name, description, status and last_modified_time. -/
def updMainRecord (db : DB) (a : Alert) : DB :=
  { db with
    alerts := db.alerts.map (fun r =>
      if r.id == a.id then
        { r with displayName := a.displayName, description := a.description,
                 status := a.status, lastModifiedTime := a.lastModifiedTime }
      else r)
    log := db.log ++ [Ev.updAlert a.id] }

/-- Embeds UpdateWithTransaction step 2: when a Configuration is present in
the input, first drop the old severity/join associations, then merge the
Configuration; without one, nothing in the Configuration subgraph is
touched and the root patch value stays the input's configuration_id. -/
def configPhase (db : DB) (a : Alert) : Except StoreErr (Option Nat × DB) :=
  match a.configuration with
  | none => .ok (a.configurationId, db)
  | some _ =>
      let d1 := deleteConfigurationAssociations db a.id
      updateConfiguration d1 a

/-- Embeds UpdateWithTransaction step 3: when a Schedule is present in the
input, delete the alert's schedule rows and recreate from the input;
without one the schedule rows are untouched. -/
def schedulePhase (db : DB) (a : Alert) : Option Nat × DB :=
  match a.schedule with
  | none => (a.scheduleId, db)
  | some s =>
      let d1 := { db with
        schedules := db.schedules.filter (fun r => !(r.alertId == a.id))
        log := db.log ++ [Ev.delSchedules a.id] }
      let p := d1.insSchedule a.id s
      (some p.1, p.2)

/-- Embeds UpdateWithTransaction step 4: when the incoming tag list is
non-empty, delete the alert's tag rows and recreate from the input. -/
def tagsPhase (db : DB) (a : Alert) : Except StoreErr DB :=
  if a.tags.isEmpty then .ok db
  else
    let d1 := { db with
      tags := db.tags.filter (fun r => !(r.alertId == a.id))
      log := db.log ++ [Ev.delTags a.id] }
    d1.insTagBatch a.id a.tags

/-- Embeds UpdateWithTransaction step 5: when the incoming query list is
non-empty, delete the alert's query rows and recreate from the input. -/
def queriesPhase (db : DB) (a : Alert) : DB :=
  if a.queries.isEmpty then db
  else
    let d1 := { db with
      queries := db.queries.filter (fun r => !(r.alertId == a.id))
      log := db.log ++ [Ev.delQueries a.id] }
    d1.insQueryBatch a.id a.queries

/-- Embeds UpdateWithTransaction step 6: the final patch of the root
record's foreign keys, issued only when at least one value is present. -/
def patchPhase (db : DB) (aid : Nat) (cfgId schedId : Option Nat) : DB :=
  match cfgId, schedId with
  | none, none => db
  | _, _ => db.patchAlertForeignKeys aid cfgId schedId

/-- Embeds UpdateWithTransaction: rejects a zero root identity, then runs
the root-scalar update, the Configuration merge, and the wholesale
replacement of Schedule, Tags and Queries, finishing with the foreign-key
patch.  An error models gorm's rollback: the caller's state is unchanged. -/
def updateWithTransaction (db : DB) (a : Alert) : Except StoreErr DB :=
  if a.id == 0 then .error .invalidId
  else do
    let d1 := updMainRecord db a
    let (cfgId, d2) ← configPhase d1 a
    let p := schedulePhase d2 a
    let d4 ← tagsPhase p.2 a
    let d5 := queriesPhase d4 a
    .ok (patchPhase d5 a.id cfgId p.1)

/-! ## Reconciliation engine (sync_service.go) -/

/-- Embeds needsUpdate: the change decision of the pull sync, a
short-circuit OR over the absence or difference of last_modified_time, the
display name, the status, and the presence or value of the description. -/
def needsUpdate (existing incoming : Alert) : Bool :=
  match existing.lastModifiedTime, incoming.lastModifiedTime with
  | some a, some b =>
      if a != b then true
      else if existing.displayName != incoming.displayName then true
      else if existing.status != incoming.status then true
      else
        match existing.description, incoming.description with
        | none, some _ => true
        | some _, none => true
        | some x, some y => x != y
        | none, none => false
  | _, _ => true

/-- Embeds the store's List: the total count plus one page of root rows
ordered by creation time descending (reverse insertion order here), shifted
by offset and truncated to limit. -/
def listAlerts (db : DB) (offset limit : Nat) : List AlertRow × Nat :=
  (((db.alerts.reverse).drop offset).take limit, db.alerts.length)

/-- Summary of one SyncDatabaseToSLS run: the names the engine pushed, the
subset routed to a remote update vs a remote create, and the counters it
logs. -/
structure PushSummary where
  pushed : List String
  updatedNames : List String
  createdNames : List String
  syncedCount : Nat
  failedCount : Nat
deriving DecidableEq, Repr

/-- Embeds SyncDatabaseToSLS's batch: the engine fetches one page of at
most 1000 local alerts (`s.alertStore.List(ctx, 0, 1000)`) and, for each
fetched alert, updates the remote copy when one with the same name exists
and creates it otherwise.  The remote side is abstracted to the set of
names it already holds. -/
def syncDatabaseToSLS (remote : List String) (db : DB) : PushSummary :=
  let dbAlerts := (listAlerts db 0 1000).1
  { pushed := dbAlerts.map (fun r => r.name)
    updatedNames := (dbAlerts.filter (fun r => remote.contains r.name)).map (fun r => r.name)
    createdNames := (dbAlerts.filter (fun r => !remote.contains r.name)).map (fun r => r.name)
    syncedCount := dbAlerts.length
    failedCount := 0 }

/-- Mirrors service.SyncStatus; fields GetSyncStatus does not assign keep
their Go zero values. -/
structure SyncStatus where
  lastSyncTime : String := ""
  slsAlertCount : Nat := 0
  dbAlertCount : Nat := 0
  syncedCount : Nat := 0
  failedCount : Nat := 0
  status : String := ""
  lastError : Option String := none
deriving DecidableEq, Repr

/-- Embeds GetSyncStatus on the outcomes of its two fetches.  In the
source, the variable err is reassigned by the database count before the
status check reads it, and a failing count already returned early, so on
every successful return the checked error is nil and the status is
"healthy" — the sls_connection_failed assignment is unreachable.  The
remote fetch outcome only determines the reported remote count (0 on
failure). -/
def getSyncStatus (slsRes : Except String (List Alert)) (dbRes : Except String Nat) :
    Except String SyncStatus :=
  let slsCount := match slsRes with
    | .ok l => l.length
    | .error _ => 0
  match dbRes with
  | .error e => .error ("failed to count database alerts: " ++ e)
  | .ok n => .ok { slsAlertCount := slsCount, dbAlertCount := n, status := "healthy" }

/-! ## Helper definitions for statements and proofs -/

/-- Content of a stored tag row without its surrogate identity. -/
def tagData (r : TagRow) : Nat × String × String × Option String :=
  (r.alertId, r.tagType, r.tagKey, r.tagValue)

/-- Content of an in-memory tag with identity and owner zeroed, for
comparisons up to freshly assigned identities. -/
def tagFields (t : AlertTag) : AlertTag := { t with id := 0, alertId := 0 }

/-- Content of an in-memory query with identity and owner zeroed. -/
def queryFields (q : AlertQuery) : AlertQuery := { q with id := 0, alertId := 0 }

/-- Content of an in-memory schedule with identity and owner zeroed. -/
def scheduleFields (s : AlertSchedule) : AlertSchedule := { s with id := 0, alertId := 0 }

/-- Tag rows a successful batch insert appends, with identities counted up
from the given value. -/
def mkTagRows (i aid : Nat) : List AlertTag → List TagRow
  | [] => []
  | t :: rest => ⟨i, aid, t.tagType, t.tagKey, t.tagValue⟩ :: mkTagRows (i + 1) aid rest

/-- Query rows a successful batch insert appends. -/
def mkQueryRows (i aid : Nat) : List AlertQuery → List QueryRow
  | [] => []
  | q :: rest =>
      ⟨i, aid, q.chartTitle, q.dashboardId, q.endTime, q.powerSqlMode, q.project,
        q.query, q.region, q.roleArn, q.start, q.store, q.storeType,
        q.timeSpanType, q.ui⟩ :: mkQueryRows (i + 1) aid rest

/-- Severity rows after the batch insert has assigned consecutive
identities. -/
def assignSevIds (i : Nat) : List SeverityRow → List SeverityRow
  | [] => []
  | r :: rest => { r with id := i } :: assignSevIds (i + 1) rest

/-- The write events a batch insert of `n` rows appends, with identities
counted up from `i`. -/
def insEvs (f : Nat → Ev) : Nat → Nat → List Ev
  | _, 0 => []
  | i, n + 1 => f i :: insEvs f (i + 1) n

/-- Join rows after the batch insert has assigned consecutive
identities. -/
def assignJoinIds (i : Nat) : List JoinRow → List JoinRow
  | [] => []
  | r :: rest => { r with id := i } :: assignJoinIds (i + 1) rest

/-- The prepared severity rows the create path hands to the batch insert:
each carries the configuration id, and a severity whose eval condition is
present points at the freshly created condition row, whose identities count
up from `i`. -/
def sevRowsFrom (i cid : Nat) : List SeverityConfiguration → List SeverityRow
  | [] => []
  | s :: rest =>
      match s.evalCondition with
      | some _ =>
          { id := 0, alertConfigId := cid, severity := s.severity,
            evalConditionId := some i } :: sevRowsFrom (i + 1) cid rest
      | none =>
          { id := 0, alertConfigId := cid, severity := s.severity,
            evalConditionId := s.evalConditionId } :: sevRowsFrom i cid rest

/-- The condition rows the create path's severity walk inserts for the
present eval conditions, with identities counted up from `i`. -/
def evalRowsFrom (i cid : Nat) : List SeverityConfiguration → List ConditionRow
  | [] => []
  | s :: rest =>
      match s.evalCondition with
      | some ec => ⟨i, cid, ec.condition, ec.countCondition⟩ :: evalRowsFrom (i + 1) cid rest
      | none => evalRowsFrom i cid rest

/-- The write events of the severity walk's eval-condition inserts. -/
def evalEvsFrom (i : Nat) : List SeverityConfiguration → List Ev
  | [] => []
  | s :: rest =>
      match s.evalCondition with
      | some _ => Ev.insCondition i :: evalEvsFrom (i + 1) rest
      | none => evalEvsFrom i rest

/-- How many of the severities carry an eval condition (how many condition
rows and identities the severity walk consumes). -/
def evalCount : List SeverityConfiguration → Nat
  | [] => 0
  | s :: rest =>
      match s.evalCondition with
      | some _ => evalCount rest + 1
      | none => evalCount rest

/-- Projection onto the root-side tables (alerts, schedules, tags,
queries), used to state that the Configuration-merge path leaves them
untouched. -/
def stqa (db : DB) : List AlertRow × List ScheduleRow × List TagRow × List QueryRow :=
  (db.alerts, db.schedules, db.tags, db.queries)

/-- Projection onto the Configuration-side tables, used to state that the
Schedule/Tag/Query phases leave the Configuration subgraph untouched. -/
def cfgTables (db : DB) :
    List ConfigRow × List SeverityRow × List JoinRow × List ConditionRow ×
    List GroupRow × List PolicyRow × List TemplateRow × List SinkAlerthubRow ×
    List SinkCmsRow × List SinkEventStoreRow :=
  (db.configs, db.severities, db.joins, db.conditions, db.groups, db.policies,
   db.templates, db.sinkAlerthubs, db.sinkCmss, db.sinkEventStores)

/-- Well-formedness of a store state: every row identity is below its
table's AUTO_INCREMENT counter and every owning reference points below the
owner table's counter.  Any state reachable from the empty store satisfies
this; the round-trip and cascade theorems assume it. -/
def WF (db : DB) : Prop :=
  (∀ r ∈ db.alerts, r.id < db.nextAlertId) ∧
  (∀ c ∈ db.configs, c.id < db.nextConfigId ∧ c.alertId < db.nextAlertId) ∧
  (∀ s ∈ db.severities, s.alertConfigId < db.nextConfigId) ∧
  (∀ j ∈ db.joins, j.alertConfigId < db.nextConfigId) ∧
  (∀ s ∈ db.schedules, s.id < db.nextScheduleId) ∧
  (∀ t ∈ db.tags, t.alertId < db.nextAlertId) ∧
  (∀ q ∈ db.queries, q.alertId < db.nextAlertId) ∧
  (∀ c ∈ db.conditions, c.id < db.nextConditionId) ∧
  (∀ g ∈ db.groups, g.id < db.nextGroupId) ∧
  (∀ p ∈ db.policies, p.id < db.nextPolicyId) ∧
  (∀ t ∈ db.templates, t.id < db.nextTemplateId)

/-! ## Concrete fixtures -/

/-- An aggregate with a full Configuration — all six optional sub-blocks,
one severity with an eval condition, one join row — plus a Schedule, one
Tag and one Query. -/
def fullAlert : Alert :=
  { name := "n", displayName := "d", description := some "x", status := "ENABLED",
    createTime := some 1, lastModifiedTime := some 2,
    configuration := some
      { autoAnnotationFlag := some true, dashboard := some "db", muteUntil := some 3,
        noDataFire := some false, noDataSeverity := some 4, threshold := some 5,
        type := some "t", version := some "v", sendResolved := some true,
        conditionConfig := some { condition := some "c", countCondition := some "cc" },
        groupConfig := some { fields := some "f", type := some "g" },
        policyConfig := some { actionPolicyId := some "ap", alertPolicyId := some "alp",
                               repeatInterval := some "ri" },
        templateConfig := some { templateId := some "tid", lang := some "en",
                                 type := some "tt", version := some "tv",
                                 aonotations := some "an", tokens := some "tk" },
        sinkAlerthubConfig := some { enabled := some true },
        sinkCmsConfig := some { enabled := some false },
        sinkEventStoreConfig := some { enabled := some true, endpoint := some "ep",
                                       eventStore := some "es", project := some "pj",
                                       roleArn := some "ra" },
        severityConfigs := [{ severity := some 6,
                              evalCondition := some { condition := some "ec",
                                                      countCondition := some "ecc" } }],
        joinConfigs := [{ joinType := some "jt", joinConfig := some "jc" }] },
    schedule := some { cronExpression := some "0 * * * *", delay := some 7,
                       interval := some "1m", runImmediately := some true,
                       timeZone := some "tz", type := "Cron" },
    tags := [{ tagType := "label", tagKey := "k", tagValue := some "v" }],
    queries := [{ chartTitle := some "ct", dashboardId := some "di",
                  endTime := some "now", powerSqlMode := some "auto",
                  project := some "p", query := "q", region := some "r",
                  roleArn := some "ra2", start := some "-5m", store := some "s",
                  storeType := some "log", timeSpanType := some "rel",
                  ui := some "u" }] }

/-- Failure oracle that fails the sixth write statement of a transaction. -/
def failAtFive : Nat → Bool := fun n => n == 5

/-- A local comparison record for the change decision. -/
def c7Local : Alert :=
  { name := "n", displayName := "A", status := "ENABLED", description := none,
    lastModifiedTime := some 100 }

/-- An incoming comparison record agreeing with `c7Local` on every compared
field. -/
def c7Incoming : Alert :=
  { name := "n", displayName := "A", status := "ENABLED", description := none,
    lastModifiedTime := some 100 }

/-- A store holding 1001 alerts, one more than SyncDatabaseToSLS's
hardcoded page size. -/
def c8DB : DB :=
  { emptyDB with
    alerts := (List.range 1001).map (fun i =>
      ⟨i + 1, toString i, "d", none, "ENABLED", none, none, none, none⟩)
    nextAlertId := 1002 }

/-- A store holding one alert that owns a single tag row. -/
def c5DB : DB :=
  { emptyDB with
    alerts := [⟨1, "n", "d", none, "ENABLED", none, none, none, none⟩]
    tags := [⟨1, 1, "label", "k", some "v"⟩]
    nextAlertId := 2, nextTagId := 2 }

/-- An update input for alert 1 with an empty tag list (and no other
associations). -/
def c5EmptyTagsInput : Alert := { id := 1, name := "n", displayName := "d2" }

/-- An update input for alert 1 carrying two distinct tags. -/
def c5TwoTagsInput : Alert :=
  { id := 1, name := "n", displayName := "d2",
    tags := [{ tagType := "label", tagKey := "k1", tagValue := some "v1" },
             { tagType := "annotation", tagKey := "k2", tagValue := none }] }

/-- A store with one alert whose Configuration row's two sink slots are
occupied by existing sink rows. -/
def c6DB : DB :=
  { emptyDB with
    alerts := [⟨1, "n", "d", none, "ENABLED", none, none, some 1, none⟩]
    configs := [⟨1, 1, some true, some "db", none, none, none, none, some "t",
                 some "v", none, none, none, none, none, some 1, some 1, none⟩]
    sinkAlerthubs := [⟨1, 0, some false⟩]
    sinkCmss := [⟨1, 0, some true⟩]
    nextAlertId := 2, nextConfigId := 2, nextSinkAlerthubId := 2, nextSinkCmsId := 2 }

/-- A store with one alert owning a Configuration (with one severity and
one join row), a Schedule, a Tag, a Query, and an (orphanable) condition
sub-block row. -/
def c4DB : DB :=
  { emptyDB with
    alerts := [⟨1, "n", "d", none, "ENABLED", none, none, some 1, some 1⟩]
    configs := [⟨1, 1, none, none, none, none, none, none, some "t", none, none,
                 some 1, none, none, none, none, none, none⟩]
    conditions := [⟨1, 1, some "c", none⟩]
    severities := [⟨1, 1, some 2, none⟩]
    joins := [⟨1, 1, some "jt", none⟩]
    schedules := [⟨1, 1, none, none, none, none, none, "Cron"⟩]
    tags := [⟨1, 1, "label", "k", none⟩]
    queries := [⟨1, 1, none, none, none, none, none, "q", none, none, none, none,
                 none, none, none⟩]
    nextAlertId := 2, nextConfigId := 2, nextConditionId := 2, nextSeverityId := 2,
    nextJoinId := 2, nextScheduleId := 2, nextTagId := 2, nextQueryId := 2 }

/-- An update input for alert 1 with no Configuration, no Schedule, empty
Tags and empty Queries. -/
def c10BareInput : Alert := { id := 1, name := "n", displayName := "d3" }
def c4ConfigRow : ConfigRow :=
  ⟨1, 1, none, none, none, none, none, none, some "t", none, none,
   some 1, none, none, none, none, none, none⟩

def c6ConfigRow : ConfigRow :=
  ⟨1, 1, some true, some "db", none, none, none, none, some "t",
   some "v", none, none, none, none, none, some 1, some 1, none⟩

def c5Db1 : DB :=
  match updateWithTransaction c4DB c5TwoTagsInput with
  | .ok d => d
  | .error _ => emptyDB

def c5Db2 : DB :=
  match updateWithTransaction c5Db1 c5TwoTagsInput with
  | .ok d => d
  | .error _ => emptyDB

def c10Result : DB :=
  match updateWithTransaction c4DB c10BareInput with
  | .ok d => d
  | .error _ => emptyDB


set_option maxRecDepth 10000

/-! ## Claim theorems -/

/-- Claim C7: the pull sync's change decision (needsUpdate) decides update
exactly when the short-circuit OR holds of: either last_modified_time
absent, the timestamps differing, the display name differing, the status
differing, or the description differing in presence or value; and on the
concrete pair agreeing on lastModifiedTime=100, displayName, status and a
null description the decision is skip, flipping to update when only the
description becomes non-null. -/
theorem C7_change_decision :
    (∀ a b : Alert, (needsUpdate a b = true ↔
      (a.lastModifiedTime = none ∨ b.lastModifiedTime = none ∨
       a.lastModifiedTime ≠ b.lastModifiedTime ∨
       a.displayName ≠ b.displayName ∨ a.status ≠ b.status ∨
       a.description ≠ b.description))) ∧
    needsUpdate c7Local c7Incoming = false ∧
    needsUpdate c7Local { c7Incoming with description := some "y" } = true := by
  refine ⟨fun a b => ?_, rfl, rfl⟩
  rcases ha : a.lastModifiedTime with _ | x <;> rcases hb : b.lastModifiedTime with _ | y <;>
    simp [needsUpdate, ha, hb]
  rcases hda : a.description with _ | dx <;> rcases hdb : b.description with _ | dy <;>
    simp [hda, hdb, bne_iff_ne]

/-- Claim C9: GetSyncStatus reports the remote and local counts, but its
health flag does not derive from the remote fetch outcome — with the
remote list failing and the local count succeeding, the code still reports
status "healthy" with no recorded error, because the status check reads
the shadowed (nil) count error; on a successful remote fetch it also
reports "healthy". -/
theorem C9_status_healthy_despite_remote_failure :
    getSyncStatus (.error "connection refused") (.ok 5) =
      .ok { slsAlertCount := 0, dbAlertCount := 5, status := "healthy" } ∧
    getSyncStatus (.ok [c7Local]) (.ok 5) =
      .ok { slsAlertCount := 1, dbAlertCount := 5, status := "healthy" } := ⟨rfl, rfl⟩

/-- Claim C8, counterexample: with 1001 local alerts, the push batch holds
only 1000 names and the alert named "0" is stored locally but absent from
the batch — the engine does not page through the full local set. -/
theorem C8_push_truncation_counterexample :
    c8DB.alerts.length = 1001 ∧
    (syncDatabaseToSLS [] c8DB).pushed.length = 1000 ∧
    c8DB.alerts.any (fun r => r.name == "0") = true ∧
    (syncDatabaseToSLS [] c8DB).pushed.contains "0" = false := ⟨rfl, rfl, by decide, by decide⟩

/-- Claim C8, amended: SyncDatabaseToSLS fetches exactly one page of at
most 1000 local aggregates (the most recently created ones) and pushes
each of those; every local aggregate is covered only when at most 1000
exist. -/
theorem C8_push_fetches_single_page (remote : List String) (db : DB) :
    (syncDatabaseToSLS remote db).pushed =
      (db.alerts.reverse.take 1000).map (fun r => r.name) ∧
    (syncDatabaseToSLS remote db).pushed.length = min 1000 db.alerts.length ∧
    (db.alerts.length ≤ 1000 →
      ∀ r ∈ db.alerts, r.name ∈ (syncDatabaseToSLS remote db).pushed) := by
  refine ⟨by simp [syncDatabaseToSLS, listAlerts], by simp [syncDatabaseToSLS, listAlerts], ?_⟩
  intro h r hr
  have ht : db.alerts.reverse.take 1000 = db.alerts.reverse :=
    List.take_of_length_le (by simpa using h)
  simp only [syncDatabaseToSLS, listAlerts, List.drop_zero, ht, List.mem_map]
  exact ⟨r, by simpa using hr, rfl⟩

/-- Claim C8, witness for the amended theorem on a one-alert store. -/
theorem C8_push_fetches_single_page_witness :
    c5DB.alerts.length ≤ 1000 ∧
    (∀ r ∈ c5DB.alerts, r.name ∈ (syncDatabaseToSLS [] c5DB).pushed) :=
  ⟨by decide, fun r hr => (C8_push_fetches_single_page [] c5DB).2.2 (by decide) r hr⟩

/-- Claim C3: whenever any step of CreateWithTransaction fails — under any
failure oracle, any store and any input — the operation surfaces the error
with the stored state unchanged, and a read by the intended (previously
absent) name afterwards fails with a not-found error. -/
theorem C3_create_rollback (fails : Nat → Bool) (db : DB) (a : Alert) (e : StoreErr)
    (h : (createRun fails db a).1 = some e) :
    (createRun fails db a).2 = db ∧
    ((∀ r ∈ db.alerts, r.name ≠ a.name) →
      getByName (createRun fails db a).2 a.name = .error .notFound) := by
  unfold createRun at h ⊢
  cases hc : createWithTransaction fails db a with
  | ok p => rw [hc] at h; simp at h
  | error e' =>
      refine ⟨rfl, fun hn => ?_⟩
      show getByName db a.name = Except.error StoreErr.notFound
      unfold getByName
      have hfind : db.alerts.find? (fun r => r.name == a.name) = none := by
        rw [List.find?_eq_none]
        intro x hx
        simpa using hn x hx
      rw [hfind]

/-- Claim C3, witness: a failure injected at the sixth write statement of
the full-aggregate create on an empty store rolls back to the empty store,
and reading the intended name returns not-found. -/
theorem C3_create_rollback_witness :
    (createRun failAtFive emptyDB fullAlert).1 = some .injectedFailure ∧
    (createRun failAtFive emptyDB fullAlert).2 = emptyDB ∧
    getByName (createRun failAtFive emptyDB fullAlert).2 fullAlert.name =
      .error .notFound := by
  have h := C3_create_rollback failAtFive emptyDB fullAlert .injectedFailure (by decide)
  exact ⟨by decide, h.1, h.2 (by decide)⟩

/-- Claim C1, counterexample: creating the full aggregate and reading it
back by its new identity does not return a graph equal to the input — the
input's join row, SinkAlerthub block and Condition block are present in
the input but the read-back Configuration has no join rows, no
SinkAlerthub block and no Condition block. -/
theorem C1_roundtrip_counterexample :
    fullAlert.configuration.map (fun c => c.joinConfigs.length) = some 1 ∧
    fullAlert.configuration.bind (fun c => c.sinkAlerthubConfig) =
      some { enabled := some true } ∧
    fullAlert.configuration.map (fun c => c.conditionConfig.isSome) = some true ∧
    ((createWithTransaction noFail emptyDB fullAlert).toOption.map (fun p =>
        (getByID p.2 p.1).toOption.map (fun v =>
          v.configuration.map (fun c =>
            (c.joinConfigs.length, c.sinkAlerthubConfig, c.conditionConfig)))) =
      some (some (some (0, none, none)))) := by
  refine ⟨rfl, rfl, rfl, by decide⟩

/-- Claim C2, counterexample: after creating the full aggregate on an
empty store, the stored Configuration row's condition_config_id column is
null even though two condition rows (the sub-block and the eval condition)
were created in the same operation, and the write log shows the
Configuration row inserted before every sub-block row — not after them. -/
theorem C2_create_order_counterexample :
    ((createWithTransaction noFail emptyDB fullAlert).toOption.map (fun p =>
        p.2.configs.map (fun c => c.conditionConfigId)) = some [none]) ∧
    ((createWithTransaction noFail emptyDB fullAlert).toOption.map (fun p =>
        p.2.conditions.map (fun c => (c.id, c.alertConfigId))) = some [(1, 1), (2, 1)]) ∧
    ((createWithTransaction noFail emptyDB fullAlert).toOption.map (fun p => p.2.log) =
      some [Ev.insAlert 1, Ev.insConfig 1, Ev.insCondition 1, Ev.insGroup 1,
            Ev.insPolicy 1, Ev.insTemplate 1, Ev.insSinkAlerthub 1, Ev.insSinkCms 1,
            Ev.insSinkEventStore 1, Ev.insCondition 2, Ev.insSeverity 1, Ev.insJoin 1,
            Ev.insSchedule 1, Ev.insTag 1, Ev.insQuery 1, Ev.patchAlert 1]) := by
  refine ⟨by decide, by decide, by decide⟩

/-- Claim C5, counterexample: an update whose incoming tag list is empty
leaves the alert's existing tag row in place — the Tag rows are not
replaced wholesale with the (empty) incoming collection. -/
theorem C5_update_tags_counterexample :
    c5DB.tags = [⟨1, 1, "label", "k", some "v"⟩] ∧
    c5EmptyTagsInput.tags = [] ∧
    (updateWithTransaction c5DB c5EmptyTagsInput).toOption.map (fun d => d.tags) =
      some [⟨1, 1, "label", "k", some "v"⟩] := by
  refine ⟨rfl, rfl, by decide⟩

lemma find?_not_filter {α} (p : α → Bool) (l : List α) :
    (l.filter (fun x => !(p x))).find? p = none := by
  rw [List.find?_eq_none]
  intro x hx h
  have h2 := (List.mem_filter.mp hx).2
  rw [h] at h2
  simp at h2

lemma filter_not_filter {α} (p : α → Bool) (l : List α) :
    (l.filter (fun x => !(p x))).filter p = [] := by
  rw [List.filter_filter, List.filter_eq_nil_iff]
  intro a _
  cases h : p a <;> simp [h]

lemma find?_of_filter_singleton {α} (p : α → Bool) (l : List α) (x : α)
    (h : l.filter p = [x]) : l.find? p = some x := by
  induction l with
  | nil => simp at h
  | cons a t ih =>
      cases hp : p a with
      | false =>
          rw [List.filter_cons_of_neg (by simp [hp])] at h
          rw [List.find?_cons_of_neg _ (by simp [hp])]
          exact ih h
      | true =>
          rw [List.filter_cons_of_pos hp] at h
          rw [List.find?_cons_of_pos _ hp]
          simp at h
          simp [h.1]

/-- Claim C4: Delete removes, inside one transaction and in order, the
Configuration's severity and join rows, the Configuration row, the
Schedule row, the Tag rows, the Query rows, and then the root row (shown
by the write log); afterwards a read by the id fails with a not-found
error and no Schedule/Tag/Query/Severity/Join rows referencing the alert
id or its Configuration id remain, while the six sub-block tables are
untouched.  The hypothesis pins the alert's single Configuration row. -/
theorem C4_delete_cascade (db : DB) (id : Nat) (c : ConfigRow)
    (hc : db.configs.filter (fun r => r.alertId == id) = [c]) :
    getByID (deleteAlert db id) id = .error .notFound ∧
    (deleteAlert db id).schedules.filter (fun s => s.alertId == id) = [] ∧
    (deleteAlert db id).tags.filter (fun t => t.alertId == id) = [] ∧
    (deleteAlert db id).queries.filter (fun q => q.alertId == id) = [] ∧
    (deleteAlert db id).severities.filter (fun s => s.alertConfigId == c.id) = [] ∧
    (deleteAlert db id).joins.filter (fun j => j.alertConfigId == c.id) = [] ∧
    (deleteAlert db id).configs.filter (fun r => r.alertId == id) = [] ∧
    (deleteAlert db id).conditions = db.conditions ∧
    (deleteAlert db id).groups = db.groups ∧
    (deleteAlert db id).policies = db.policies ∧
    (deleteAlert db id).templates = db.templates ∧
    (deleteAlert db id).sinkAlerthubs = db.sinkAlerthubs ∧
    (deleteAlert db id).sinkCmss = db.sinkCmss ∧
    (deleteAlert db id).sinkEventStores = db.sinkEventStores ∧
    (deleteAlert db id).log = db.log ++
      [Ev.delSeverities c.id, Ev.delJoins c.id, Ev.delConfigs id, Ev.delSchedules id,
       Ev.delTags id, Ev.delQueries id, Ev.delAlert id] := by
  have hfind : db.configs.find? (fun r => r.alertId == id) = some c :=
    find?_of_filter_singleton _ _ _ hc
  unfold deleteAlert deleteConfigurationAssociations
  rw [hfind]
  refine ⟨?_, ?_, ?_, ?_, ?_, ?_, ?_, rfl, rfl, rfl, rfl, rfl, rfl, rfl, ?_⟩
  · unfold getByID
    rw [show (db.alerts.filter (fun a => !(a.id == id))).find? (fun r => r.id == id) = none
          from find?_not_filter _ _]
  · exact filter_not_filter _ _
  · exact filter_not_filter _ _
  · exact filter_not_filter _ _
  · exact filter_not_filter _ _
  · exact filter_not_filter _ _
  · exact filter_not_filter _ _
  · simp

/-- Claim C6: when the Configuration row's SinkAlerthub or SinkCms
foreign-key slot is already occupied, the upsert rewrites only the enabled
column of the existing sink row in place — the row's identity is reused,
no new sink row is created (row count and identities unchanged), and every
other table, including the Configuration row itself, is left unchanged. -/
theorem C6_sink_upsert_in_place (db : DB) (cid sidA sidC : Nat)
    (cA : SinkAlerthubConfiguration) (cC : SinkCmsConfiguration) (c : ConfigRow)
    (hfind : db.configs.find? (fun r => r.id == cid) = some c)
    (hslotA : c.sinkAlerthubConfigId = some sidA) (hA0 : sidA ≠ 0)
    (hslotC : c.sinkCmsConfigId = some sidC) (hC0 : sidC ≠ 0) :
    upsertSinkAlerthubConfig db cid cA =
      .ok (sidA, { db with
        sinkAlerthubs := db.sinkAlerthubs.map (fun r =>
          if r.id == sidA then { r with enabled := cA.enabled } else r)
        log := db.log ++ [Ev.updSinkAlerthub sidA] }) ∧
    upsertSinkCmsConfig db cid cC =
      .ok (sidC, { db with
        sinkCmss := db.sinkCmss.map (fun r =>
          if r.id == sidC then { r with enabled := cC.enabled } else r)
        log := db.log ++ [Ev.updSinkCms sidC] }) ∧
    ((upsertSinkAlerthubConfig db cid cA).toOption.map (fun p =>
        (p.2.sinkAlerthubs.map (fun r => r.id), p.2.sinkAlerthubs.length,
         p.2.configs, p.2.sinkCmss)) =
      some (db.sinkAlerthubs.map (fun r => r.id), db.sinkAlerthubs.length,
            db.configs, db.sinkCmss)) ∧
    ((upsertSinkCmsConfig db cid cC).toOption.map (fun p =>
        (p.2.sinkCmss.map (fun r => r.id), p.2.sinkCmss.length,
         p.2.configs, p.2.sinkAlerthubs)) =
      some (db.sinkCmss.map (fun r => r.id), db.sinkCmss.length,
            db.configs, db.sinkAlerthubs)) := by
  have hA : (sidA != 0) = true := by simp [bne_iff_ne]; exact hA0
  have hC : (sidC != 0) = true := by simp [bne_iff_ne]; exact hC0
  have e1 : upsertSinkAlerthubConfig db cid cA =
      .ok (sidA, { db with
        sinkAlerthubs := db.sinkAlerthubs.map (fun r =>
          if r.id == sidA then { r with enabled := cA.enabled } else r)
        log := db.log ++ [Ev.updSinkAlerthub sidA] }) := by
    simp only [upsertSinkAlerthubConfig, hfind, hslotA, hA, if_true]
  have e2 : upsertSinkCmsConfig db cid cC =
      .ok (sidC, { db with
        sinkCmss := db.sinkCmss.map (fun r =>
          if r.id == sidC then { r with enabled := cC.enabled } else r)
        log := db.log ++ [Ev.updSinkCms sidC] }) := by
    simp only [upsertSinkCmsConfig, hfind, hslotC, hC, if_true]
  refine ⟨e1, e2, ?_, ?_⟩
  · rw [e1]
    simp [Except.toOption]
    exact fun a _ => by split <;> rfl
  · rw [e2]
    simp [Except.toOption]
    exact fun a _ => by split <;> rfl

lemma except_bind_ok {ε α β : Type} (x : Except ε α) (f : α → Except ε β) (b : β)
    (h : (x >>= f) = .ok b) : ∃ a, x = .ok a ∧ f a = .ok b := by
  cases x with
  | ok a => exact ⟨a, rfl, h⟩
  | error e =>
      exfalso
      simp only [bind, Except.bind] at h
      cases h

lemma stqa_insCondition (db : DB) (c : ConditionConfiguration) :
    stqa (db.insCondition c).2 = stqa db := rfl

lemma stqa_insGroup (db : DB) (c : GroupConfiguration) :
    stqa (db.insGroup c).2 = stqa db := rfl

lemma stqa_insPolicy (db : DB) (c : PolicyConfiguration) :
    stqa (db.insPolicy c).2 = stqa db := rfl

lemma stqa_insTemplate (db : DB) (c : TemplateConfiguration) :
    stqa (db.insTemplate c).2 = stqa db := rfl

lemma stqa_insSinkAlerthub (db : DB) (c : SinkAlerthubConfiguration) :
    stqa (db.insSinkAlerthub c).2 = stqa db := rfl

lemma stqa_insSinkCms (db : DB) (c : SinkCmsConfiguration) :
    stqa (db.insSinkCms c).2 = stqa db := rfl

lemma stqa_insSinkEventStore (db : DB) (c : SinkEventStoreConfiguration) :
    stqa (db.insSinkEventStore c).2 = stqa db := rfl

lemma stqa_insConfig (db : DB) (c : ConfigRow) :
    stqa (db.insConfig c).2 = stqa db := rfl

lemma stqa_optIns {α : Type} (db : DB) (o : Option α) (f : DB → α → Nat × DB)
    (hf : ∀ d x, stqa (f d x).2 = stqa d) :
    stqa (optIns db o f).2 = stqa db := by
  cases o <;> simp [optIns, hf]

lemma stqa_insSeverityBatch : ∀ (ps : List SeverityRow) (db : DB),
    stqa (DB.insSeverityBatch db ps) = stqa db
  | [], _ => rfl
  | r :: rest, db => by
      simp only [DB.insSeverityBatch]
      rw [stqa_insSeverityBatch rest]
      rfl

lemma stqa_insJoinBatch : ∀ (ps : List JoinRow) (db : DB),
    stqa (DB.insJoinBatch db ps) = stqa db
  | [], _ => rfl
  | r :: rest, db => by
      simp only [DB.insJoinBatch]
      rw [stqa_insJoinBatch rest]
      rfl

lemma stqa_sevPrepareUpdate (cid : Nat) :
    ∀ (l : List SeverityConfiguration) (db : DB),
      stqa (sevPrepareUpdate cid db l).2 = stqa db
  | [], _ => rfl
  | s :: rest, db => by
      cases hev : s.evalCondition with
      | none =>
          simp only [sevPrepareUpdate, hev]
          exact stqa_sevPrepareUpdate cid rest db
      | some ec =>
          simp only [sevPrepareUpdate, hev]
          rw [stqa_sevPrepareUpdate cid rest]
          rfl

lemma stqa_recreateConfiguration (db : DB) (a : Alert) :
    stqa (recreateConfiguration db a).2 = stqa db := by
  cases hconf : a.configuration with
  | none => simp [recreateConfiguration, hconf]
  | some cfg =>
      simp only [recreateConfiguration, hconf]
      split <;> split <;>
        simp [stqa_optIns, stqa_insCondition, stqa_insGroup, stqa_insPolicy,
              stqa_insTemplate, stqa_insSinkAlerthub, stqa_insSinkCms,
              stqa_insSinkEventStore, stqa_insConfig, stqa_insSeverityBatch,
              stqa_insJoinBatch, stqa_sevPrepareUpdate]

lemma stqa_upsertConditionConfig (db : DB) (cid : Nat) (cfg : ConditionConfiguration)
    (p : Nat × DB) (h : upsertConditionConfig db cid cfg = .ok p) :
    stqa p.2 = stqa db := by
  unfold upsertConditionConfig at h
  split at h
  · cases h
  · split at h
    · split at h <;> (cases h; simp [stqa, DB.insCondition])
    · cases h; simp [stqa, DB.insCondition]

lemma stqa_upsertGroupConfig (db : DB) (cid : Nat) (cfg : GroupConfiguration)
    (p : Nat × DB) (h : upsertGroupConfig db cid cfg = .ok p) :
    stqa p.2 = stqa db := by
  unfold upsertGroupConfig at h
  split at h
  · cases h
  · split at h
    · split at h <;> (cases h; simp [stqa, DB.insGroup])
    · cases h; simp [stqa, DB.insGroup]

lemma stqa_upsertPolicyConfig (db : DB) (cid : Nat) (cfg : PolicyConfiguration)
    (p : Nat × DB) (h : upsertPolicyConfig db cid cfg = .ok p) :
    stqa p.2 = stqa db := by
  unfold upsertPolicyConfig at h
  split at h
  · cases h
  · split at h
    · split at h <;> (cases h; simp [stqa, DB.insPolicy])
    · cases h; simp [stqa, DB.insPolicy]

lemma stqa_upsertTemplateConfig (db : DB) (cid : Nat) (cfg : TemplateConfiguration)
    (p : Nat × DB) (h : upsertTemplateConfig db cid cfg = .ok p) :
    stqa p.2 = stqa db := by
  unfold upsertTemplateConfig at h
  split at h
  · cases h
  · split at h
    · split at h <;> (cases h; simp [stqa, DB.insTemplate])
    · cases h; simp [stqa, DB.insTemplate]

lemma stqa_upsertSinkAlerthubConfig (db : DB) (cid : Nat)
    (cfg : SinkAlerthubConfiguration) (p : Nat × DB)
    (h : upsertSinkAlerthubConfig db cid cfg = .ok p) :
    stqa p.2 = stqa db := by
  unfold upsertSinkAlerthubConfig at h
  split at h
  · cases h
  · split at h
    · split at h <;> (cases h; simp [stqa, DB.insSinkAlerthub])
    · cases h; simp [stqa, DB.insSinkAlerthub]

lemma stqa_upsertSinkCmsConfig (db : DB) (cid : Nat)
    (cfg : SinkCmsConfiguration) (p : Nat × DB)
    (h : upsertSinkCmsConfig db cid cfg = .ok p) :
    stqa p.2 = stqa db := by
  unfold upsertSinkCmsConfig at h
  split at h
  · cases h
  · split at h
    · split at h <;> (cases h; simp [stqa, DB.insSinkCms])
    · cases h; simp [stqa, DB.insSinkCms]

lemma stqa_upsertSinkEventStoreConfig (db : DB) (cid : Nat)
    (cfg : SinkEventStoreConfiguration) (p : Nat × DB)
    (h : upsertSinkEventStoreConfig db cid cfg = .ok p) :
    stqa p.2 = stqa db := by
  unfold upsertSinkEventStoreConfig at h
  split at h
  · cases h
  · split at h
    · split at h <;> (cases h; simp [stqa, DB.insSinkEventStore])
    · cases h; simp [stqa, DB.insSinkEventStore]


lemma insSeverityBatch_alerts (ps : List SeverityRow) (db : DB) :
    (DB.insSeverityBatch db ps).alerts = db.alerts :=
  congrArg (fun t => t.1) (stqa_insSeverityBatch ps db)

lemma insSeverityBatch_schedules (ps : List SeverityRow) (db : DB) :
    (DB.insSeverityBatch db ps).schedules = db.schedules :=
  congrArg (fun t => t.2.1) (stqa_insSeverityBatch ps db)

lemma insSeverityBatch_tags (ps : List SeverityRow) (db : DB) :
    (DB.insSeverityBatch db ps).tags = db.tags :=
  congrArg (fun t => t.2.2.1) (stqa_insSeverityBatch ps db)

lemma insSeverityBatch_queries (ps : List SeverityRow) (db : DB) :
    (DB.insSeverityBatch db ps).queries = db.queries :=
  congrArg (fun t => t.2.2.2) (stqa_insSeverityBatch ps db)

lemma insJoinBatch_alerts (ps : List JoinRow) (db : DB) :
    (DB.insJoinBatch db ps).alerts = db.alerts :=
  congrArg (fun t => t.1) (stqa_insJoinBatch ps db)

lemma insJoinBatch_schedules (ps : List JoinRow) (db : DB) :
    (DB.insJoinBatch db ps).schedules = db.schedules :=
  congrArg (fun t => t.2.1) (stqa_insJoinBatch ps db)

lemma insJoinBatch_tags (ps : List JoinRow) (db : DB) :
    (DB.insJoinBatch db ps).tags = db.tags :=
  congrArg (fun t => t.2.2.1) (stqa_insJoinBatch ps db)

lemma insJoinBatch_queries (ps : List JoinRow) (db : DB) :
    (DB.insJoinBatch db ps).queries = db.queries :=
  congrArg (fun t => t.2.2.2) (stqa_insJoinBatch ps db)

lemma sevPrepareUpdate_alerts (cid : Nat) (l : List SeverityConfiguration) (db : DB) :
    (sevPrepareUpdate cid db l).2.alerts = db.alerts :=
  congrArg (fun t => t.1) (stqa_sevPrepareUpdate cid l db)

lemma sevPrepareUpdate_schedules (cid : Nat) (l : List SeverityConfiguration) (db : DB) :
    (sevPrepareUpdate cid db l).2.schedules = db.schedules :=
  congrArg (fun t => t.2.1) (stqa_sevPrepareUpdate cid l db)

lemma sevPrepareUpdate_tags (cid : Nat) (l : List SeverityConfiguration) (db : DB) :
    (sevPrepareUpdate cid db l).2.tags = db.tags :=
  congrArg (fun t => t.2.2.1) (stqa_sevPrepareUpdate cid l db)

lemma sevPrepareUpdate_queries (cid : Nat) (l : List SeverityConfiguration) (db : DB) :
    (sevPrepareUpdate cid db l).2.queries = db.queries :=
  congrArg (fun t => t.2.2.2) (stqa_sevPrepareUpdate cid l db)

lemma stqa_optUpsert {α : Type} (dPrev : DB) (o : Option α)
    (f : DB → α → Except StoreErr (Nat × DB))
    (hf : ∀ d x p, f d x = .ok p → stqa p.2 = stqa d)
    (d : DB) (h : optUpsert dPrev o f = .ok d) :
    stqa d = stqa dPrev := by
  unfold optUpsert at h
  cases o with
  | none => cases h; rfl
  | some x =>
      obtain ⟨p, hp, h2⟩ := except_bind_ok _ _ _ h
      cases h2
      exact hf _ _ _ hp

lemma stqa_updateConfiguration (db : DB) (a : Alert) (r : Option Nat × DB)
    (h : updateConfiguration db a = .ok r) : stqa r.2 = stqa db := by
  unfold updateConfiguration at h
  cases hconf : a.configuration with
  | none => simp only [hconf] at h; cases h; rfl
  | some cfg =>
      simp only [hconf] at h
      cases hfind : db.configs.find? (fun c => c.alertId == a.id) with
      | none =>
          simp only [hfind] at h
          cases h
          exact stqa_recreateConfiguration db a
      | some ec =>
          simp only [hfind] at h
          obtain ⟨d2, h2, h⟩ := except_bind_ok _ _ _ h
          obtain ⟨d3, h3, h⟩ := except_bind_ok _ _ _ h
          obtain ⟨d4, h4, h⟩ := except_bind_ok _ _ _ h
          obtain ⟨d5, h5, h⟩ := except_bind_ok _ _ _ h
          obtain ⟨d6, h6, h⟩ := except_bind_ok _ _ _ h
          obtain ⟨d7, h7, h⟩ := except_bind_ok _ _ _ h
          obtain ⟨d8, h8, h⟩ := except_bind_ok _ _ _ h
          cases h
          have e2 := stqa_optUpsert _ _ _
            (fun d x p hp => stqa_upsertConditionConfig d ec.id x p hp) d2 h2
          have e3 := stqa_optUpsert _ _ _
            (fun d x p hp => stqa_upsertGroupConfig d ec.id x p hp) d3 h3
          have e4 := stqa_optUpsert _ _ _
            (fun d x p hp => stqa_upsertPolicyConfig d ec.id x p hp) d4 h4
          have e5 := stqa_optUpsert _ _ _
            (fun d x p hp => stqa_upsertTemplateConfig d ec.id x p hp) d5 h5
          have e6 := stqa_optUpsert _ _ _
            (fun d x p hp => stqa_upsertSinkAlerthubConfig d ec.id x p hp) d6 h6
          have e7 := stqa_optUpsert _ _ _
            (fun d x p hp => stqa_upsertSinkCmsConfig d ec.id x p hp) d7 h7
          have e8 := stqa_optUpsert _ _ _
            (fun d x p hp => stqa_upsertSinkEventStoreConfig d ec.id x p hp) d8 h8
          refine Eq.trans ?_ (e8.trans (e7.trans (e6.trans (e5.trans (e4.trans (e3.trans e2))))))
          dsimp only
          split <;> split <;>
            simp [stqa, insSeverityBatch_alerts, insSeverityBatch_schedules,
                  insSeverityBatch_tags, insSeverityBatch_queries, insJoinBatch_alerts,
                  insJoinBatch_schedules, insJoinBatch_tags, insJoinBatch_queries,
                  sevPrepareUpdate_alerts, sevPrepareUpdate_schedules,
                  sevPrepareUpdate_tags, sevPrepareUpdate_queries]

lemma stqa_alerts_eq {d1 d2 : DB} (h : stqa d1 = stqa d2) : d1.alerts = d2.alerts :=
  congrArg (fun t => t.1) h

lemma stqa_schedules_eq {d1 d2 : DB} (h : stqa d1 = stqa d2) : d1.schedules = d2.schedules :=
  congrArg (fun t => t.2.1) h

lemma stqa_tags_eq {d1 d2 : DB} (h : stqa d1 = stqa d2) : d1.tags = d2.tags :=
  congrArg (fun t => t.2.2.1) h

lemma stqa_queries_eq {d1 d2 : DB} (h : stqa d1 = stqa d2) : d1.queries = d2.queries :=
  congrArg (fun t => t.2.2.2) h

lemma stqa_configPhase (db : DB) (a : Alert) (r : Option Nat × DB)
    (h : configPhase db a = .ok r) : stqa r.2 = stqa db := by
  unfold configPhase at h
  cases hconf : a.configuration with
  | none => simp only [hconf] at h; cases h; rfl
  | some cfg =>
      simp only [hconf] at h
      have e := stqa_updateConfiguration _ a r h
      rw [e]
      unfold deleteConfigurationAssociations
      split <;> rfl

lemma updMainRecord_frame (db : DB) (a : Alert) :
    cfgTables (updMainRecord db a) = cfgTables db ∧
    (updMainRecord db a).schedules = db.schedules ∧
    (updMainRecord db a).tags = db.tags ∧
    (updMainRecord db a).queries = db.queries := ⟨rfl, rfl, rfl, rfl⟩

lemma schedulePhase_frame (db : DB) (a : Alert) :
    cfgTables (schedulePhase db a).2 = cfgTables db ∧
    (schedulePhase db a).2.tags = db.tags ∧
    (schedulePhase db a).2.queries = db.queries ∧
    (schedulePhase db a).2.alerts = db.alerts := by
  unfold schedulePhase
  split <;> simp [DB.insSchedule, cfgTables]

lemma insTagRows_frame : ∀ (ts : List AlertTag) (db : DB) (aid : Nat),
    cfgTables (DB.insTagRows db aid ts) = cfgTables db ∧
    (DB.insTagRows db aid ts).alerts = db.alerts ∧
    (DB.insTagRows db aid ts).schedules = db.schedules ∧
    (DB.insTagRows db aid ts).queries = db.queries
  | [], _, _ => ⟨rfl, rfl, rfl, rfl⟩
  | t :: rest, db, aid => by
      simp only [DB.insTagRows]
      exact insTagRows_frame rest _ aid

lemma insQueryBatch_frame : ∀ (qs : List AlertQuery) (db : DB) (aid : Nat),
    cfgTables (DB.insQueryBatch db aid qs) = cfgTables db ∧
    (DB.insQueryBatch db aid qs).alerts = db.alerts ∧
    (DB.insQueryBatch db aid qs).schedules = db.schedules ∧
    (DB.insQueryBatch db aid qs).tags = db.tags
  | [], _, _ => ⟨rfl, rfl, rfl, rfl⟩
  | q :: rest, db, aid => by
      simp only [DB.insQueryBatch]
      exact insQueryBatch_frame rest _ aid

lemma tagsPhase_frame (db : DB) (a : Alert) (d : DB) (h : tagsPhase db a = .ok d) :
    cfgTables d = cfgTables db ∧ d.alerts = db.alerts ∧
    d.schedules = db.schedules ∧ d.queries = db.queries := by
  unfold tagsPhase at h
  split at h
  · cases h; exact ⟨rfl, rfl, rfl, rfl⟩
  · unfold DB.insTagBatch at h
    dsimp only at h
    split at h
    · cases h
    · cases h
      exact insTagRows_frame a.tags _ a.id

lemma queriesPhase_frame (db : DB) (a : Alert) :
    cfgTables (queriesPhase db a) = cfgTables db ∧
    (queriesPhase db a).alerts = db.alerts ∧
    (queriesPhase db a).schedules = db.schedules ∧
    (queriesPhase db a).tags = db.tags := by
  unfold queriesPhase
  split
  · exact ⟨rfl, rfl, rfl, rfl⟩
  · exact insQueryBatch_frame a.queries _ a.id

lemma patchPhase_frame (db : DB) (aid : Nat) (c s : Option Nat) :
    cfgTables (patchPhase db aid c s) = cfgTables db ∧
    (patchPhase db aid c s).schedules = db.schedules ∧
    (patchPhase db aid c s).tags = db.tags ∧
    (patchPhase db aid c s).queries = db.queries := by
  unfold patchPhase
  split <;> simp [DB.patchAlertForeignKeys, cfgTables]

lemma cfgTables_eq_components {d1 d2 : DB} (h : cfgTables d1 = cfgTables d2) :
    d1.configs = d2.configs ∧ d1.severities = d2.severities ∧ d1.joins = d2.joins ∧
    d1.conditions = d2.conditions ∧ d1.groups = d2.groups ∧
    d1.policies = d2.policies ∧ d1.templates = d2.templates ∧
    d1.sinkAlerthubs = d2.sinkAlerthubs ∧ d1.sinkCmss = d2.sinkCmss ∧
    d1.sinkEventStores = d2.sinkEventStores := by
  refine ⟨congrArg (fun t => t.1) h, congrArg (fun t => t.2.1) h,
    congrArg (fun t => t.2.2.1) h, congrArg (fun t => t.2.2.2.1) h,
    congrArg (fun t => t.2.2.2.2.1) h, congrArg (fun t => t.2.2.2.2.2.1) h,
    congrArg (fun t => t.2.2.2.2.2.2.1) h, congrArg (fun t => t.2.2.2.2.2.2.2.1) h,
    congrArg (fun t => t.2.2.2.2.2.2.2.2.1) h, congrArg (fun t => t.2.2.2.2.2.2.2.2.2) h⟩

/-- Claim C10: UpdateWithTransaction only touches the parts of the graph
present in its input — with a nil Configuration the Configuration,
severity, join and all six sub-block tables are unchanged; with a nil
Schedule the schedule rows are unchanged; with empty Tags the tag rows are
unchanged; with empty Queries the query rows are unchanged. -/
theorem C10_update_frame (db : DB) (a : Alert) (db' : DB)
    (h : updateWithTransaction db a = .ok db') :
    (a.configuration = none →
       db'.configs = db.configs ∧ db'.severities = db.severities ∧
       db'.joins = db.joins ∧ db'.conditions = db.conditions ∧
       db'.groups = db.groups ∧ db'.policies = db.policies ∧
       db'.templates = db.templates ∧ db'.sinkAlerthubs = db.sinkAlerthubs ∧
       db'.sinkCmss = db.sinkCmss ∧ db'.sinkEventStores = db.sinkEventStores) ∧
    (a.schedule = none → db'.schedules = db.schedules) ∧
    (a.tags = [] → db'.tags = db.tags) ∧
    (a.queries = [] → db'.queries = db.queries) := by
  unfold updateWithTransaction at h
  split at h
  · cases h
  · obtain ⟨x, hcp, h⟩ := except_bind_ok _ _ _ h
    obtain ⟨cfgId, d2⟩ := x
    obtain ⟨d4, htp, h⟩ := except_bind_ok _ _ _ h
    cases h
    -- db' is patchPhase (queriesPhase d4 a) a.id cfgId (schedulePhase d2 a).1
    have hstq2 := stqa_configPhase _ a (cfgId, d2) hcp
    refine ⟨?_, ?_, ?_, ?_⟩
    · intro hconf
      simp only [configPhase, hconf] at hcp
      have hd2 : d2 = updMainRecord db a := by
        cases hcp
        rfl
      subst hd2
      have e1 := (patchPhase_frame (queriesPhase d4 a) a.id cfgId (schedulePhase (updMainRecord db a) a).1).1
      have e2 := (queriesPhase_frame d4 a).1
      have e3 := (tagsPhase_frame _ a d4 htp).1
      have e4 := (schedulePhase_frame (updMainRecord db a) a).1
      exact cfgTables_eq_components (e1.trans (e2.trans (e3.trans (e4.trans (updMainRecord_frame db a).1))))
    · intro hsched
      have e1 := (patchPhase_frame (queriesPhase d4 a) a.id cfgId (schedulePhase d2 a).1).2.1
      have e2 := (queriesPhase_frame d4 a).2.2.1
      have e3 := (tagsPhase_frame _ a d4 htp).2.2.1
      have e4 : (schedulePhase d2 a).2 = d2 := by simp [schedulePhase, hsched]
      rw [e1, e2, e3, e4]
      exact (stqa_schedules_eq hstq2).trans (updMainRecord_frame db a).2.1
    · intro htags
      have e1 := (patchPhase_frame (queriesPhase d4 a) a.id cfgId (schedulePhase d2 a).1).2.2.1
      have e2 := (queriesPhase_frame d4 a).2.2.2
      have e3 : d4 = (schedulePhase d2 a).2 := by
        unfold tagsPhase at htp
        rw [htags] at htp
        simp at htp
        exact htp.symm
      have e4 := (schedulePhase_frame d2 a).2.1
      rw [e1, e2, e3, e4]
      exact (stqa_tags_eq hstq2).trans (updMainRecord_frame db a).2.2.1
    · intro hq
      have e1 := (patchPhase_frame (queriesPhase d4 a) a.id cfgId (schedulePhase d2 a).1).2.2.2
      have e2 : queriesPhase d4 a = d4 := by simp [queriesPhase, hq]
      have e3 := (tagsPhase_frame _ a d4 htp).2.2.2
      have e4 := (schedulePhase_frame d2 a).2.2.1
      rw [e1, e2, e3, e4]
      exact (stqa_queries_eq hstq2).trans (updMainRecord_frame db a).2.2.2


/-- Claim C4, witness on a concrete one-alert store with a full graph. -/
theorem C4_delete_cascade_witness :
    c4DB.configs.filter (fun r => r.alertId == 1) = [c4ConfigRow] ∧
    getByID (deleteAlert c4DB 1) 1 = .error .notFound ∧
    (deleteAlert c4DB 1).severities.filter (fun s => s.alertConfigId == c4ConfigRow.id) = [] ∧
    (deleteAlert c4DB 1).conditions = c4DB.conditions := by
  have h := C4_delete_cascade c4DB 1 c4ConfigRow (by decide)
  exact ⟨by decide, h.1, h.2.2.2.2.1, h.2.2.2.2.2.2.2.1⟩

/-- Claim C6, witness on a store whose Configuration occupies both sink
slots. -/
theorem C6_sink_upsert_in_place_witness :
    upsertSinkAlerthubConfig c6DB 1 { enabled := some true } =
      .ok (1, { c6DB with
        sinkAlerthubs := [⟨1, 0, some true⟩]
        log := [Ev.updSinkAlerthub 1] }) ∧
    upsertSinkCmsConfig c6DB 1 { enabled := some false } =
      .ok (1, { c6DB with
        sinkCmss := [⟨1, 0, some false⟩]
        log := [Ev.updSinkCms 1] }) := by
  have h := C6_sink_upsert_in_place c6DB 1 1 1 { enabled := some true }
    { enabled := some false } c6ConfigRow (by decide) (by decide) (by decide)
    (by decide) (by decide)
  refine ⟨h.1.trans ?_, h.2.1.trans ?_⟩ <;> rfl

/-- Claim C10, witness: updating alert 1 of a fully populated store with
a bare input leaves its Configuration, Schedule, Tag and Query rows as
they were. -/
theorem C10_update_frame_witness :
    c10BareInput.configuration = none ∧ c10BareInput.schedule = none ∧
    c10BareInput.tags = [] ∧ c10BareInput.queries = [] ∧
    updateWithTransaction c4DB c10BareInput = .ok c10Result ∧
    c10Result.configs = c4DB.configs ∧ c10Result.schedules = c4DB.schedules ∧
    c10Result.tags = c4DB.tags ∧ c10Result.queries = c4DB.queries := by
  have heq : updateWithTransaction c4DB c10BareInput = .ok c10Result := rfl
  have h := C10_update_frame c4DB c10BareInput c10Result heq
  exact ⟨rfl, rfl, rfl, rfl, heq, (h.1 rfl).1, h.2.1 rfl, h.2.2.1 rfl, h.2.2.2 rfl⟩

lemma mkTagRows_alertId : ∀ (ts : List AlertTag) (i aid : Nat),
    ∀ r ∈ mkTagRows i aid ts, r.alertId = aid
  | [], _, _ => by simp [mkTagRows]
  | t :: rest, i, aid => by
      simp only [mkTagRows, List.mem_cons]
      rintro r (rfl | hr)
      · rfl
      · exact mkTagRows_alertId rest (i + 1) aid r hr

lemma mkTagRows_map_tagData : ∀ (ts : List AlertTag) (i aid : Nat),
    (mkTagRows i aid ts).map tagData =
      ts.map (fun t => (aid, t.tagType, t.tagKey, t.tagValue))
  | [], _, _ => rfl
  | t :: rest, i, aid => by
      simp only [mkTagRows, List.map_cons]
      rw [mkTagRows_map_tagData rest]
      rfl

lemma mkTagRows_length : ∀ (ts : List AlertTag) (i aid : Nat),
    (mkTagRows i aid ts).length = ts.length
  | [], _, _ => rfl
  | t :: rest, i, aid => by
      simp only [mkTagRows, List.length_cons]
      rw [mkTagRows_length rest]

lemma mkTagRows_filter_self (ts : List AlertTag) (i aid : Nat) :
    (mkTagRows i aid ts).filter (fun r => r.alertId == aid) = mkTagRows i aid ts := by
  rw [List.filter_eq_self]
  intro r hr
  simp [mkTagRows_alertId ts i aid r hr]

lemma insTagRows_tags : ∀ (ts : List AlertTag) (db : DB) (aid : Nat),
    (DB.insTagRows db aid ts).tags = db.tags ++ mkTagRows db.nextTagId aid ts
  | [], db, aid => by simp [DB.insTagRows, mkTagRows]
  | t :: rest, db, aid => by
      simp only [DB.insTagRows, mkTagRows]
      rw [insTagRows_tags rest]
      simp

lemma tagsPhase_tags (db : DB) (a : Alert) (d : DB) (hne : a.tags ≠ [])
    (h : tagsPhase db a = .ok d) :
    d.tags = db.tags.filter (fun r => !(r.alertId == a.id)) ++
      mkTagRows db.nextTagId a.id a.tags := by
  unfold tagsPhase at h
  rw [if_neg (by simpa using hne)] at h
  unfold DB.insTagBatch at h
  dsimp only at h
  split at h
  · cases h
  · cases h
    rw [insTagRows_tags]

lemma updateWithTransaction_tags (db : DB) (a : Alert) (db' : DB) (hne : a.tags ≠ [])
    (h : updateWithTransaction db a = .ok db') :
    ∃ n, db'.tags = db.tags.filter (fun r => !(r.alertId == a.id)) ++
      mkTagRows n a.id a.tags := by
  unfold updateWithTransaction at h
  split at h
  · cases h
  · obtain ⟨x, hcp, h⟩ := except_bind_ok _ _ _ h
    obtain ⟨cfgId, d2⟩ := x
    obtain ⟨d4, htp, h⟩ := except_bind_ok _ _ _ h
    cases h
    refine ⟨(schedulePhase d2 a).2.nextTagId, ?_⟩
    have e1 := (patchPhase_frame (queriesPhase d4 a) a.id cfgId (schedulePhase d2 a).1).2.2.1
    have e2 := (queriesPhase_frame d4 a).2.2.2
    have e3 := tagsPhase_tags _ a d4 hne htp
    have e4 := (schedulePhase_frame d2 a).2.1
    have e5 := (stqa_tags_eq (stqa_configPhase _ a (cfgId, d2) hcp)).trans
      (updMainRecord_frame db a).2.2.1
    rw [e1, e2, e3, e4, e5]

/-- Claim C5, amended: for an Update input with a non-empty tag list, the
alert's Tag rows are replaced wholesale with the incoming list, so two
consecutive updates with the same tags both leave exactly the incoming
tags (same content, same count — no duplication); an empty incoming list
leaves the rows untouched instead (see the counterexample). -/
theorem C5_update_tags_replacement (db db1 db2 : DB) (a : Alert)
    (hne : a.tags ≠ [])
    (h1 : updateWithTransaction db a = .ok db1)
    (h2 : updateWithTransaction db1 a = .ok db2) :
    (db1.tags.filter (fun r => r.alertId == a.id)).map tagData =
      a.tags.map (fun t => (a.id, t.tagType, t.tagKey, t.tagValue)) ∧
    (db2.tags.filter (fun r => r.alertId == a.id)).map tagData =
      a.tags.map (fun t => (a.id, t.tagType, t.tagKey, t.tagValue)) ∧
    (db1.tags.filter (fun r => r.alertId == a.id)).length = a.tags.length ∧
    (db2.tags.filter (fun r => r.alertId == a.id)).length = a.tags.length := by
  obtain ⟨n1, e1⟩ := updateWithTransaction_tags db a db1 hne h1
  obtain ⟨n2, e2⟩ := updateWithTransaction_tags db1 a db2 hne h2
  have k1 : db1.tags.filter (fun r => r.alertId == a.id) = mkTagRows n1 a.id a.tags := by
    rw [e1, List.filter_append, filter_not_filter, mkTagRows_filter_self]
    rfl
  have k2 : db2.tags.filter (fun r => r.alertId == a.id) = mkTagRows n2 a.id a.tags := by
    rw [e2, List.filter_append, filter_not_filter, mkTagRows_filter_self]
    rfl
  rw [k1, k2, mkTagRows_map_tagData, mkTagRows_map_tagData, mkTagRows_length,
    mkTagRows_length]
  exact ⟨rfl, rfl, rfl, rfl⟩


/-- Claim C5, witness: updating alert 1 twice with the same two tags
yields exactly those two tag rows both times. -/
theorem C5_update_tags_replacement_witness :
    c5TwoTagsInput.tags ≠ [] ∧
    updateWithTransaction c4DB c5TwoTagsInput = .ok c5Db1 ∧
    updateWithTransaction c5Db1 c5TwoTagsInput = .ok c5Db2 ∧
    (c5Db1.tags.filter (fun r => r.alertId == c5TwoTagsInput.id)).map tagData =
      c5TwoTagsInput.tags.map (fun t => (c5TwoTagsInput.id, t.tagType, t.tagKey, t.tagValue)) ∧
    (c5Db2.tags.filter (fun r => r.alertId == c5TwoTagsInput.id)).length =
      c5TwoTagsInput.tags.length := by
  have g1 : updateWithTransaction c4DB c5TwoTagsInput = .ok c5Db1 := rfl
  have g2 : updateWithTransaction c5Db1 c5TwoTagsInput = .ok c5Db2 := rfl
  have h := C5_update_tags_replacement c4DB c5Db1 c5Db2 c5TwoTagsInput (by decide) g1 g2
  exact ⟨by decide, g1, g2, h.1, h.2.2.2⟩

lemma ok_bind {ε α β : Type} (a : α) (f : α → Except ε β) :
    (Except.ok a >>= f : Except ε β) = f a := rfl

/-- Claim C2, amended: Create persists, in order, the bare root record,
then the Configuration row holding only its scalar columns and alert id —
its sub-block foreign-key columns are left null — then each present
sub-block row carrying the Configuration's identity in its alert_config_id
column, then the severity eval condition and the severity and join rows,
the Schedule, the Tags, the Queries, and finally the patch of the root
record's configuration_id/schedule_id (shown by the write log, for an
aggregate with all blocks present and singleton collections). -/
theorem C2_create_order_amended (db : DB) (a : Alert)
    (cfg : AlertConfiguration) (cc : ConditionConfiguration) (gc : GroupConfiguration)
    (pc : PolicyConfiguration) (tc : TemplateConfiguration)
    (sa : SinkAlerthubConfiguration) (sm : SinkCmsConfiguration)
    (se : SinkEventStoreConfiguration) (sv : SeverityConfiguration)
    (ec : ConditionConfiguration) (jn : JoinConfiguration) (sch : AlertSchedule)
    (tg : AlertTag) (qr : AlertQuery)
    (hcfg : a.configuration = some cfg)
    (hcc : cfg.conditionConfig = some cc) (hgc : cfg.groupConfig = some gc)
    (hpc : cfg.policyConfig = some pc) (htc : cfg.templateConfig = some tc)
    (hsa : cfg.sinkAlerthubConfig = some sa) (hsm : cfg.sinkCmsConfig = some sm)
    (hse : cfg.sinkEventStoreConfig = some se)
    (hsev : cfg.severityConfigs = [sv]) (hev : sv.evalCondition = some ec)
    (hjn : cfg.joinConfigs = [jn]) (hsch : a.schedule = some sch)
    (htg : a.tags = [tg]) (hqr : a.queries = [qr])
    (hname : db.alerts.any (fun r => r.name == a.name) = false)
    (hconf : tagExistingConflict db.tags db.nextAlertId [tg] = false) :
    ((createWithTransaction noFail db a).toOption.map (fun p => p.1) =
      some db.nextAlertId) ∧
    ((createWithTransaction noFail db a).toOption.map (fun p => p.2.log) =
      some (db.log ++
        [Ev.insAlert db.nextAlertId, Ev.insConfig db.nextConfigId,
         Ev.insCondition db.nextConditionId, Ev.insGroup db.nextGroupId,
         Ev.insPolicy db.nextPolicyId, Ev.insTemplate db.nextTemplateId,
         Ev.insSinkAlerthub db.nextSinkAlerthubId, Ev.insSinkCms db.nextSinkCmsId,
         Ev.insSinkEventStore db.nextSinkEventStoreId,
         Ev.insCondition (db.nextConditionId + 1), Ev.insSeverity db.nextSeverityId,
         Ev.insJoin db.nextJoinId, Ev.insSchedule db.nextScheduleId,
         Ev.insTag db.nextTagId, Ev.insQuery db.nextQueryId,
         Ev.patchAlert db.nextAlertId])) ∧
    ((createWithTransaction noFail db a).toOption.map (fun p => p.2.configs) =
      some (db.configs ++
        [⟨db.nextConfigId, db.nextAlertId, cfg.autoAnnotationFlag, cfg.dashboard,
          cfg.muteUntil, cfg.noDataFire, cfg.noDataSeverity, cfg.threshold, cfg.type,
          cfg.version, cfg.sendResolved, none, none, none, none, none, none, none⟩])) ∧
    ((createWithTransaction noFail db a).toOption.map (fun p => p.2.conditions) =
      some ((db.conditions ++
        [⟨db.nextConditionId, db.nextConfigId, cc.condition, cc.countCondition⟩]) ++
        [⟨db.nextConditionId + 1, db.nextConfigId, ec.condition, ec.countCondition⟩])) := by
  simp only [createWithTransaction, stepE, step, stepD, stepB, noFail, DB.insAlert,
    hname, hcfg, hcc, hgc, hpc, htc, hsa, hsm, hse, hsev, hev, hjn, hsch, htg, hqr,
    sevPrepareCreate, DB.insTagBatch, DB.insTagRows, tagBatchDup, hconf,
    List.any_nil, List.any_cons, Bool.or_false, Bool.false_or, Bool.or_self,
    DB.insConfig, DB.insCondition, DB.insGroup, DB.insPolicy, DB.insTemplate,
    DB.insSinkAlerthub, DB.insSinkCms, DB.insSinkEventStore, DB.insSeverityBatch,
    DB.insJoinBatch, DB.insSchedule, DB.insQueryBatch, DB.patchAlertForeignKeys,
    Bool.false_eq_true, if_false, List.isEmpty_cons, Except.toOption, ok_bind,
    Option.map_some']
  simp [List.append_assoc]

/-- Claim C2, witness: creating the full fixture aggregate on the empty
store produces exactly the amended write order, and the stored
Configuration row's condition/sink foreign-key columns are null. -/
theorem C2_create_order_amended_witness :
    ((createWithTransaction noFail emptyDB fullAlert).toOption.map (fun p => p.2.log)) =
      some [Ev.insAlert 1, Ev.insConfig 1, Ev.insCondition 1, Ev.insGroup 1,
            Ev.insPolicy 1, Ev.insTemplate 1, Ev.insSinkAlerthub 1, Ev.insSinkCms 1,
            Ev.insSinkEventStore 1, Ev.insCondition 2, Ev.insSeverity 1, Ev.insJoin 1,
            Ev.insSchedule 1, Ev.insTag 1, Ev.insQuery 1, Ev.patchAlert 1] ∧
    ((createWithTransaction noFail emptyDB fullAlert).toOption.map (fun p =>
        p.2.configs.map (fun c => (c.conditionConfigId, c.sinkAlerthubConfigId))) =
      some [(none, none)]) := by
  have h := C2_create_order_amended emptyDB fullAlert _ _ _ _ _ _ _ _ _ _ _ _ _ _
    rfl rfl rfl rfl rfl rfl rfl rfl rfl rfl rfl rfl rfl rfl (by decide) (by decide)
  exact ⟨h.2.1.trans (by decide), by decide⟩

lemma insSeverityBatch_eq : ∀ (ps : List SeverityRow) (db : DB),
    DB.insSeverityBatch db ps =
      { db with
        severities := db.severities ++ assignSevIds db.nextSeverityId ps
        nextSeverityId := db.nextSeverityId + ps.length
        log := db.log ++ insEvs Ev.insSeverity db.nextSeverityId ps.length }
  | [], db => by simp [DB.insSeverityBatch, assignSevIds, insEvs]
  | r :: rest, db => by
      simp only [DB.insSeverityBatch, assignSevIds, insEvs, List.length_cons]
      rw [insSeverityBatch_eq rest]
      simp [List.append_assoc]
      omega

lemma insJoinBatch_eq : ∀ (ps : List JoinRow) (db : DB),
    DB.insJoinBatch db ps =
      { db with
        joins := db.joins ++ assignJoinIds db.nextJoinId ps
        nextJoinId := db.nextJoinId + ps.length
        log := db.log ++ insEvs Ev.insJoin db.nextJoinId ps.length }
  | [], db => by simp [DB.insJoinBatch, assignJoinIds, insEvs]
  | r :: rest, db => by
      simp only [DB.insJoinBatch, assignJoinIds, insEvs, List.length_cons]
      rw [insJoinBatch_eq rest]
      simp [List.append_assoc]
      omega

lemma insTagRows_eq : ∀ (ts : List AlertTag) (db : DB) (aid : Nat),
    DB.insTagRows db aid ts =
      { db with
        tags := db.tags ++ mkTagRows db.nextTagId aid ts
        nextTagId := db.nextTagId + ts.length
        log := db.log ++ insEvs Ev.insTag db.nextTagId ts.length }
  | [], db, aid => by simp [DB.insTagRows, mkTagRows, insEvs]
  | t :: rest, db, aid => by
      simp only [DB.insTagRows, mkTagRows, insEvs, List.length_cons]
      rw [insTagRows_eq rest]
      simp [List.append_assoc]
      omega

lemma insQueryBatch_eq : ∀ (qs : List AlertQuery) (db : DB) (aid : Nat),
    DB.insQueryBatch db aid qs =
      { db with
        queries := db.queries ++ mkQueryRows db.nextQueryId aid qs
        nextQueryId := db.nextQueryId + qs.length
        log := db.log ++ insEvs Ev.insQuery db.nextQueryId qs.length }
  | [], db, aid => by simp [DB.insQueryBatch, mkQueryRows, insEvs]
  | q :: rest, db, aid => by
      simp only [DB.insQueryBatch, mkQueryRows, insEvs, List.length_cons]
      rw [insQueryBatch_eq rest]
      simp [List.append_assoc]
      omega

lemma sevPrepareCreate_eq : ∀ (l : List SeverityConfiguration) (cid : Nat) (tx : Tx),
    sevPrepareCreate noFail cid tx l =
      .ok (sevRowsFrom tx.db.nextConditionId cid l,
           ⟨{ tx.db with
              conditions := tx.db.conditions ++ evalRowsFrom tx.db.nextConditionId cid l
              nextConditionId := tx.db.nextConditionId + evalCount l
              log := tx.db.log ++ evalEvsFrom tx.db.nextConditionId l },
            tx.opIdx + evalCount l⟩)
  | [], cid, tx => by simp [sevPrepareCreate, sevRowsFrom, evalRowsFrom, evalEvsFrom, evalCount]
  | s :: rest, cid, tx => by
      cases hev : s.evalCondition with
      | none =>
          simp only [sevPrepareCreate, hev, sevRowsFrom, evalRowsFrom, evalEvsFrom, evalCount]
          rw [sevPrepareCreate_eq rest]
          rfl
      | some ec =>
          simp only [sevPrepareCreate, hev, sevRowsFrom, evalRowsFrom, evalEvsFrom,
            evalCount, step, noFail, DB.insCondition, Bool.false_eq_true, if_false, ok_bind]
          rw [sevPrepareCreate_eq rest]
          simp [ok_bind, List.append_assoc]
          omega


lemma mkQueryRows_alertId : ∀ (qs : List AlertQuery) (i aid : Nat),
    ∀ r ∈ mkQueryRows i aid qs, r.alertId = aid
  | [], _, _ => by simp [mkQueryRows]
  | q :: rest, i, aid => by
      simp only [mkQueryRows, List.mem_cons]
      rintro r (rfl | hr)
      · rfl
      · exact mkQueryRows_alertId rest (i + 1) aid r hr

lemma sevRowsFrom_cfgId : ∀ (l : List SeverityConfiguration) (i cid : Nat),
    ∀ r ∈ sevRowsFrom i cid l, r.alertConfigId = cid
  | [], _, _ => by simp [sevRowsFrom]
  | s :: rest, i, cid => by
      cases hev : s.evalCondition with
      | some ec =>
          simp only [sevRowsFrom, hev, List.mem_cons]
          rintro r (rfl | hr)
          · rfl
          · exact sevRowsFrom_cfgId rest (i + 1) cid r hr
      | none =>
          simp only [sevRowsFrom, hev, List.mem_cons]
          rintro r (rfl | hr)
          · rfl
          · exact sevRowsFrom_cfgId rest i cid r hr

lemma assignSevIds_cfgId : ∀ (ps : List SeverityRow) (i : Nat),
    ∀ r ∈ assignSevIds i ps, ∃ r0 ∈ ps, r.alertConfigId = r0.alertConfigId
  | [], _ => by simp [assignSevIds]
  | p :: rest, i => by
      simp only [assignSevIds, List.mem_cons]
      rintro r (rfl | hr)
      · exact ⟨p, Or.inl rfl, rfl⟩
      · obtain ⟨r0, h0, he⟩ := assignSevIds_cfgId rest (i + 1) r hr
        exact ⟨r0, Or.inr h0, he⟩

lemma assignSevIds_severity : ∀ (ps : List SeverityRow) (i : Nat),
    (assignSevIds i ps).map (fun r => r.severity) = ps.map (fun r => r.severity)
  | [], _ => rfl
  | p :: rest, i => by
      simp only [assignSevIds, List.map_cons]
      rw [assignSevIds_severity rest (i + 1)]

lemma sevRowsFrom_severity : ∀ (l : List SeverityConfiguration) (i cid : Nat),
    (sevRowsFrom i cid l).map (fun r => r.severity) = l.map (fun s => s.severity)
  | [], _, _ => rfl
  | s :: rest, i, cid => by
      cases hev : s.evalCondition with
      | some ec =>
          simp only [sevRowsFrom, hev, List.map_cons]
          rw [sevRowsFrom_severity rest (i + 1) cid]
      | none =>
          simp only [sevRowsFrom, hev, List.map_cons]
          rw [sevRowsFrom_severity rest i cid]

lemma mkTagRows_fields : ∀ (ts : List AlertTag) (i aid : Nat),
    (mkTagRows i aid ts).map (fun r => tagFields (TagRow.toModel r)) = ts.map tagFields
  | [], _, _ => rfl
  | t :: rest, i, aid => by
      simp only [mkTagRows, List.map_cons]
      rw [mkTagRows_fields rest (i + 1) aid]
      rfl

lemma mkQueryRows_fields : ∀ (qs : List AlertQuery) (i aid : Nat),
    (mkQueryRows i aid qs).map (fun r => queryFields (QueryRow.toModel r)) = qs.map queryFields
  | [], _, _ => rfl
  | q :: rest, i, aid => by
      simp only [mkQueryRows, List.map_cons]
      rw [mkQueryRows_fields rest (i + 1) aid]
      rfl

lemma patchMap_id (l : List AlertRow) (aid c s : Nat)
    (h : ∀ r ∈ l, (r.id == aid) = false) :
    l.map (fun r => if r.id == aid then
      { r with configurationId := some c, scheduleId := some s } else r) = l := by
  have := List.map_congr_left (l := l)
    (f := fun r => if r.id == aid then
      { r with configurationId := some c, scheduleId := some s } else r) (g := id)
    (fun r hr => by simp [h r hr])
  simpa using this


lemma find_append_single {α : Type} (p : α → Bool) (l : List α) (x : α)
    (hl : l.find? p = none) (hx : p x = true) :
    (l ++ [x]).find? p = some x := by
  induction l with
  | nil => simp [List.find?_cons, hx]
  | cons a as ih =>
      rw [List.find?_cons] at hl
      cases hpa : p a with
      | true => rw [hpa] at hl; cases hl
      | false =>
          rw [hpa] at hl
          rw [List.cons_append, List.find?_cons, hpa]
          exact ih hl

lemma filter_append_calc {α : Type} (p : α → Bool) (l1 l2 : List α)
    (h1 : l1.filter p = []) (h2 : l2.filter p = l2) :
    (l1 ++ l2).filter p = l2 := by
  rw [List.filter_append, h1, h2, List.nil_append]

lemma mkQueryRows_filter_self (qs : List AlertQuery) (i aid : Nat) :
    (mkQueryRows i aid qs).filter (fun r => r.alertId == aid) = mkQueryRows i aid qs := by
  rw [List.filter_eq_self]
  intro r hr
  simp [mkQueryRows_alertId qs i aid r hr]

/-- Claim C1, amended: for an aggregate with a full Configuration (all six
optional sub-blocks present, nonempty severity and join collections), a
Schedule, nonempty Tags and nonempty Queries, a successful Create followed
by Read returns a hydrated aggregate whose root scalars, Configuration
scalars, severity values, Schedule fields, Tags and Queries equal the
input's, with identities newly assigned — but not a graph equal in every
field: the Configuration row's sub-block foreign-key columns are left NULL
by Create and the read-back's preloads omit the Sinks, JoinConfigs and the
severities' EvalCondition, so the four preloadable sub-block views come
back none, the three sink views none, the join list empty, and every
severity's eval condition none. -/
theorem C1_roundtrip_amended (db : DB) (a : Alert)
    (cfg : AlertConfiguration) (cc : ConditionConfiguration) (gc : GroupConfiguration)
    (pc : PolicyConfiguration) (tc : TemplateConfiguration)
    (sa : SinkAlerthubConfiguration) (sm : SinkCmsConfiguration)
    (se : SinkEventStoreConfiguration) (sch : AlertSchedule)
    (hwf : WF db)
    (hcfg : a.configuration = some cfg)
    (hcc : cfg.conditionConfig = some cc) (hgc : cfg.groupConfig = some gc)
    (hpc : cfg.policyConfig = some pc) (htc : cfg.templateConfig = some tc)
    (hsa : cfg.sinkAlerthubConfig = some sa) (hsm : cfg.sinkCmsConfig = some sm)
    (hse : cfg.sinkEventStoreConfig = some se)
    (hsevne : cfg.severityConfigs.isEmpty = false)
    (hjne : cfg.joinConfigs.isEmpty = false)
    (hsch : a.schedule = some sch)
    (htne : a.tags.isEmpty = false)
    (hqne : a.queries.isEmpty = false)
    (hname : db.alerts.any (fun r => r.name == a.name) = false)
    (hconf : tagExistingConflict db.tags db.nextAlertId a.tags = false)
    (hdup : tagBatchDup a.tags = false) :
    ∃ d, createWithTransaction noFail db a = .ok (db.nextAlertId, d) ∧
    ∃ v, getByID d db.nextAlertId = .ok v ∧
      v.id = db.nextAlertId ∧ v.name = a.name ∧ v.displayName = a.displayName ∧
      v.description = a.description ∧ v.status = a.status ∧
      v.createTime = a.createTime ∧ v.lastModifiedTime = a.lastModifiedTime ∧
      (∃ cv, v.configuration = some cv ∧
        cv.autoAnnotationFlag = cfg.autoAnnotationFlag ∧ cv.dashboard = cfg.dashboard ∧
        cv.muteUntil = cfg.muteUntil ∧ cv.noDataFire = cfg.noDataFire ∧
        cv.noDataSeverity = cfg.noDataSeverity ∧ cv.threshold = cfg.threshold ∧
        cv.type = cfg.type ∧ cv.version = cfg.version ∧
        cv.sendResolved = cfg.sendResolved ∧
        cv.conditionConfig = none ∧ cv.groupConfig = none ∧
        cv.policyConfig = none ∧ cv.templateConfig = none ∧
        cv.sinkAlerthubConfig = none ∧ cv.sinkCmsConfig = none ∧
        cv.sinkEventStoreConfig = none ∧ cv.joinConfigs = [] ∧
        cv.severityConfigs.map (fun s => s.severity) =
          cfg.severityConfigs.map (fun s => s.severity) ∧
        (∀ s ∈ cv.severityConfigs, s.evalCondition = none)) ∧
      (∃ sv, v.schedule = some sv ∧ scheduleFields sv = scheduleFields sch) ∧
      v.tags.map tagFields = a.tags.map tagFields ∧
      v.queries.map queryFields = a.queries.map queryFields := by
  obtain ⟨hA, hC, hSv, hJn, hSc, hTg, hQr, hCd, hGp, hPl, hTm⟩ := hwf
  have hidsA : ∀ r ∈ db.alerts, (r.id == db.nextAlertId) = false := fun r hr => by
    simpa using Nat.ne_of_lt (hA r hr)
  have hfA : db.alerts.find? (fun r => r.id == db.nextAlertId) = none :=
    List.find?_eq_none.mpr (fun r hr => by simp [hidsA r hr])
  have hfC : db.configs.find? (fun c => c.id == db.nextConfigId) = none :=
    List.find?_eq_none.mpr (fun c hc => by
      simpa using Nat.ne_of_lt (hC c hc).1)
  have hfS : db.schedules.find? (fun r => r.id == db.nextScheduleId) = none :=
    List.find?_eq_none.mpr (fun s hs => by
      simpa using Nat.ne_of_lt (hSc s hs))
  have hfT : db.tags.filter (fun t => t.alertId == db.nextAlertId) = [] :=
    List.filter_eq_nil_iff.mpr (fun t ht => by
      simpa using Nat.ne_of_lt (hTg t ht))
  have hfQ : db.queries.filter (fun q => q.alertId == db.nextAlertId) = [] :=
    List.filter_eq_nil_iff.mpr (fun q hq => by
      simpa using Nat.ne_of_lt (hQr q hq))
  have hfSv : db.severities.filter (fun s => s.alertConfigId == db.nextConfigId) = [] :=
    List.filter_eq_nil_iff.mpr (fun s hs => by
      simpa using Nat.ne_of_lt (hSv s hs))
  have hkT : (mkTagRows db.nextTagId db.nextAlertId a.tags).filter
      (fun t => t.alertId == db.nextAlertId) = mkTagRows db.nextTagId db.nextAlertId a.tags :=
    mkTagRows_filter_self a.tags db.nextTagId db.nextAlertId
  have hkQ : (mkQueryRows db.nextQueryId db.nextAlertId a.queries).filter
      (fun q => q.alertId == db.nextAlertId) =
      mkQueryRows db.nextQueryId db.nextAlertId a.queries :=
    mkQueryRows_filter_self a.queries db.nextQueryId db.nextAlertId
  have hkSv : (assignSevIds db.nextSeverityId
        (sevRowsFrom (db.nextConditionId + 1) db.nextConfigId cfg.severityConfigs)).filter
      (fun s => s.alertConfigId == db.nextConfigId) =
      assignSevIds db.nextSeverityId
        (sevRowsFrom (db.nextConditionId + 1) db.nextConfigId cfg.severityConfigs) :=
    List.filter_eq_self.mpr (fun r hr => by
      obtain ⟨r0, h0, he⟩ := assignSevIds_cfgId _ _ r hr
      simp [he, sevRowsFrom_cfgId _ _ _ r0 h0])
  simp only [createWithTransaction, stepE, step, stepD, stepB, noFail, DB.insAlert,
    hname, hcfg, hcc, hgc, hpc, htc, hsa, hsm, hse, hsch, hsevne, hjne, htne, hqne,
    DB.insTagBatch, hconf, hdup, Bool.or_self, Bool.or_false, Bool.false_or,
    DB.insConfig, DB.insCondition, DB.insGroup, DB.insPolicy, DB.insTemplate,
    DB.insSinkAlerthub, DB.insSinkCms, DB.insSinkEventStore, DB.insSchedule,
    sevPrepareCreate_eq, insSeverityBatch_eq, insJoinBatch_eq, insTagRows_eq,
    insQueryBatch_eq, Bool.false_eq_true, if_false, ok_bind]
  refine ⟨_, rfl, ?_⟩
  simp only [getByID, DB.patchAlertForeignKeys, List.map_append, List.map_cons,
    List.map_nil,
    patchMap_id db.alerts db.nextAlertId db.nextConfigId db.nextScheduleId hidsA,
    beq_self_eq_true, eq_self_iff_true, if_true,
    find_append_single, hfA, hfC, hfS,
    filter_append_calc, hfT, hkT, hfQ, hkQ, hfSv, hkSv,
    hydrateAlert, hydrateConfiguration,
    Option.some_bind, Option.none_bind, Option.map_some']
  refine ⟨_, rfl, rfl, rfl, rfl, rfl, rfl, rfl, rfl,
    ⟨_, rfl, rfl, rfl, rfl, rfl, rfl, rfl, rfl, rfl, rfl, rfl, rfl, rfl, rfl,
      rfl, rfl, rfl, rfl, ?sevmap, ?sevnone⟩,
    ⟨_, rfl, rfl⟩, ?tags, ?queries⟩
  case sevmap =>
    rw [List.map_map]
    show (assignSevIds db.nextSeverityId
        (sevRowsFrom (db.nextConditionId + 1) db.nextConfigId cfg.severityConfigs)).map
        (fun r => r.severity) = cfg.severityConfigs.map (fun s => s.severity)
    rw [assignSevIds_severity, sevRowsFrom_severity]
  case sevnone =>
    intro s hs
    simp only [List.mem_map] at hs
    obtain ⟨r, _, rfl⟩ := hs
    rfl
  case tags =>
    rw [List.map_map]
    show (mkTagRows db.nextTagId db.nextAlertId a.tags).map
        (fun r => tagFields (TagRow.toModel r)) = a.tags.map tagFields
    exact mkTagRows_fields a.tags db.nextTagId db.nextAlertId
  case queries =>
    rw [List.map_map]
    show (mkQueryRows db.nextQueryId db.nextAlertId a.queries).map
        (fun r => queryFields (QueryRow.toModel r)) = a.queries.map queryFields
    exact mkQueryRows_fields a.queries db.nextQueryId db.nextAlertId


/-- Claim C1, witness: creating the full fixture aggregate on the empty
store succeeds with identity 1, and reading it back returns the input's
name and tag contents. -/
theorem C1_roundtrip_amended_witness :
    WF emptyDB ∧
    ∃ d, createWithTransaction noFail emptyDB fullAlert = .ok (1, d) ∧
    ∃ v, getByID d 1 = .ok v ∧ v.name = fullAlert.name ∧
      v.tags.map tagFields = fullAlert.tags.map tagFields := by
  have h := C1_roundtrip_amended emptyDB fullAlert _ _ _ _ _ _ _ _ _
    (by simp [WF, emptyDB]) rfl rfl rfl rfl rfl rfl rfl rfl rfl rfl rfl rfl rfl
    (by decide) (by decide) (by decide)
  obtain ⟨d, hd, v, hv, hid, hnm, _, _, _, _, _, _, _, ht, hq⟩ := h
  exact ⟨by simp [WF, emptyDB], d, hd, v, hv, hnm, ht⟩

end SlsMigrate
